import Mathlib

/-!
# Community Marketplace: the listing wizard of `frontend/js/create-listing.js`

A shallow embedding of the create-listing wizard (its Draft `formData`, the step
validator, the photo slots, the draft collection and the save and publish
paths) together with the JavaScript primitives the wizard relies on
(`String.prototype.trim`, `Number(...)` applied to a string, truthiness, sparse
arrays), of the text helpers and validators of `frontend/js/common.js` and of
the listing filter of `frontend/js/listings.js`, followed by the properties
established about them.

Conventions of the embedding:

* a JavaScript string is a Lean `String`; the characters the wizard inspects
  (white space, digits, signs) all live in the Basic Multilingual Plane, so the
  difference between UTF-16 code units and code points plays no role;
* a JavaScript number is a `JS.JSNumber`: NaN, an infinity, or a finite
  binary64 value written `sig * 2 ^ exp` with `sig` odd (or zero);
* a JavaScript array that may have holes is a `List (Option α)`, `none` being a
  hole;
* the page is a `Dom` record holding the value of every control the wizard
  reads or writes; calls to the presentation collaborator
  (`window.app.ui.showAlert`, `window.app.ui.showFieldError`) are recorded, in
  order, as `UiCall`s.
-/

namespace JS

/-! ## Strings: white space and `trim` -/

/-- The code points matched by the ECMAScript productions `WhiteSpace` and
`LineTerminator`; these are the characters removed by `String.prototype.trim`
and skipped around a numeric literal by `Number(...)`. -/
def isWhiteSpace (c : Char) : Bool :=
  decide (c.toNat ∈ [0x09, 0x0A, 0x0B, 0x0C, 0x0D, 0x20, 0xA0, 0x1680,
      0x2028, 0x2029, 0x202F, 0x205F, 0x3000, 0xFEFF])
    || (decide (0x2000 ≤ c.toNat) && decide (c.toNat ≤ 0x200A))

/-- Strip leading and trailing white space from a list of characters. -/
def trimChars (cs : List Char) : List Char :=
  ((cs.dropWhile isWhiteSpace).reverse.dropWhile isWhiteSpace).reverse

/-- The method `String.prototype.trim`. -/
def trim (s : String) : String := ⟨trimChars s.data⟩

/-- Truthiness of a string: only the empty string is falsy. -/
def truthy (s : String) : Bool := !(s == "")

/-- The expression `a || b` on strings. -/
def orElse (a b : String) : String := if truthy a then a else b

/-- The method `String.prototype.startsWith` (with the default position 0). -/
def startsWith (s p : String) : Bool := p.data.isPrefixOf s.data

/-! ## Numbers -/

/-- A JavaScript number (IEEE-754 binary64).  `finite neg sig exp` denotes
`(-1)^neg * sig * 2^exp`, kept normalised: `sig` is odd, or `sig = 0` and
`exp = 0` (the two zeros `+0` and `-0`). -/
inductive JSNumber where
  | nan
  | inf (neg : Bool)
  | finite (neg : Bool) (sig : Nat) (exp : Int)
deriving DecidableEq, Repr

/-- Number of binary digits of `n` (`0` for `0`), by halving; the first
argument bounds the number of halvings. -/
def bitLengthAux : Nat → Nat → Nat
  | 0, _ => 0
  | fuel + 1, n => if n = 0 then 0 else bitLengthAux fuel (n / 2) + 1

/-- Number of binary digits of `n`. -/
def bitLength (n : Nat) : Nat := bitLengthAux n n

/-- The fraction `(n / d) / 2 ^ p`, as a numerator and a denominator. -/
def scalePow2 (n d : Nat) (p : Int) : Nat × Nat :=
  match p with
  | Int.ofNat k => (n, d * 2 ^ k)
  | Int.negSucc k => (n * 2 ^ (k + 1), d)

/-- For positive `n` and `d`, the integer `e` with `2^e ≤ n / d < 2^(e+1)`. -/
def floorLog2 (n d : Nat) : Int :=
  let e0 : Int := (bitLength n : Int) - (bitLength d : Int)
  let q := scalePow2 n d e0
  if q.2 ≤ q.1 then e0 else e0 - 1

/-- The integer nearest to `a / b`, ties going to the even neighbour. -/
def roundHalfEven (a b : Nat) : Nat :=
  let f := a / b
  let r := a % b
  if 2 * r < b then f
  else if b < 2 * r then f + 1
  else if f % 2 = 0 then f else f + 1

/-- Divide an even significand by two, raising the exponent, until the
significand is odd (or zero); the first argument bounds the number of steps. -/
def normalizeSig : Nat → Nat → Int → Nat × Int
  | 0, s, e => (s, e)
  | fuel + 1, s, e =>
    if s = 0 then (0, 0)
    else if s % 2 = 0 then normalizeSig fuel (s / 2) (e + 1) else (s, e)

/-- The number value for the non-negative rational `n / d` with sign `neg`:
round to the nearest binary64 value, ties to even; magnitudes that round to
`2^1024` or more become an infinity, magnitudes that round below the least
subnormal become a zero. -/
def roundToBinary64 (neg : Bool) (n d : Nat) : JSNumber :=
  if n = 0 then .finite neg 0 0
  else
    let e := max (floorLog2 n d) (-1022)
    let q := scalePow2 n d (e - 52)
    let sig := roundHalfEven q.1 q.2
    if 1024 ≤ e ∨ (e = 1023 ∧ 2 ^ 53 ≤ sig) then .inf neg
    else
      let r := normalizeSig 64 sig (e - 52)
      .finite neg r.1 r.2

/-- The number value of the exact decimal `m * 10 ^ e` with sign `neg`. -/
def ofDecimal (neg : Bool) (m : Nat) (e : Int) : JSNumber :=
  match e with
  | Int.ofNat k => roundToBinary64 neg (m * 10 ^ k) 1
  | Int.negSucc k => roundToBinary64 neg m (10 ^ (k + 1))

/-- The number value of a natural number. -/
def JSNumber.ofNat (n : Nat) : JSNumber := roundToBinary64 false n 1

instance (n : Nat) : OfNat JSNumber n := ⟨JSNumber.ofNat n⟩

/-- Truthiness of a number: the zeros and NaN are falsy. -/
def JSNumber.truthy : JSNumber → Bool
  | .nan => false
  | .inf _ => true
  | .finite _ sig _ => decide (sig ≠ 0)

/-- The comparison `x <= 0`: false for NaN, otherwise whether `x` is a zero or
negative. -/
def JSNumber.leZero : JSNumber → Bool
  | .nan => false
  | .inf neg => neg
  | .finite neg sig _ => neg || decide (sig = 0)

/-- Strict equality `x === y` on numbers: NaN equals nothing, the two zeros
are equal, otherwise the values coincide. -/
def JSNumber.strictEq : JSNumber → JSNumber → Bool
  | .nan, _ => false
  | _, .nan => false
  | .finite _ 0 _, .finite _ 0 _ => true
  | x, y => decide (x = y)

/-! ## `Number(...)` applied to a string (the abstract operation StringToNumber) -/

/-- The ECMAScript production `DecimalDigit`. -/
def isDecimalDigit (c : Char) : Bool := decide (48 ≤ c.toNat) && decide (c.toNat ≤ 57)

/-- Value of a digit in the given base (at most 16), if the character is one. -/
def digitValue (base : Nat) (c : Char) : Option Nat :=
  let n := c.toNat
  let v : Option Nat :=
    if 48 ≤ n ∧ n ≤ 57 then some (n - 48)
    else if 97 ≤ n ∧ n ≤ 102 then some (n - 87)
    else if 65 ≤ n ∧ n ≤ 70 then some (n - 55)
    else none
  v.bind fun d => if d < base then some d else none

/-- Value of a non-empty run of digits in the given base; `none` when the run
is empty or holds a character that is not a digit of the base. -/
def digitsValue (base : Nat) (cs : List Char) : Option Nat :=
  if cs = [] then none
  else cs.foldl (fun acc c => acc.bind fun a => (digitValue base c).map fun d => a * base + d)
    (some 0)

/-- The mathematical value of a `StrUnsignedDecimalLiteral`. -/
inductive DecimalValue where
  | infinity
  | decimal (m : Nat) (e : Int)
deriving DecidableEq, Repr

/-- The production `SignedInteger` of an exponent part: optional sign, then
decimal digits. -/
def signedInteger (cs : List Char) : Option Int :=
  match cs with
  | '+' :: ds => (digitsValue 10 ds).map Int.ofNat
  | '-' :: ds => (digitsValue 10 ds).map fun n => - Int.ofNat n
  | ds => (digitsValue 10 ds).map Int.ofNat

/-- The production `StrUnsignedDecimalLiteral`, matched against the whole
list: `Infinity`, or digits with an optional fraction and an optional exponent
(at least one digit before or after the point). -/
def strUnsignedDecimalLiteral (cs : List Char) : Option DecimalValue :=
  if cs = "Infinity".data then some .infinity
  else
    let ip := cs.takeWhile isDecimalDigit
    let r1 := cs.dropWhile isDecimalDigit
    let fp := match r1 with
      | '.' :: t => t.takeWhile isDecimalDigit
      | _ => []
    let r2 := match r1 with
      | '.' :: t => t.dropWhile isDecimalDigit
      | _ => r1
    if ip = [] ∧ fp = [] then none
    else
      let ex : Option Int := match r2 with
        | [] => some 0
        | c :: t => if c = 'e' ∨ c = 'E' then signedInteger t else none
      match ex, digitsValue 10 (ip ++ fp) with
      | some x, some m => some (.decimal m (x - fp.length))
      | _, _ => none

/-- The production `NonDecimalIntegerLiteral` (binary, octal or hexadecimal
with its two-character marker, no sign). -/
def nonDecimalIntegerLiteral (cs : List Char) : Option Nat :=
  match cs with
  | '0' :: m :: ds =>
    if m = 'x' ∨ m = 'X' then digitsValue 16 ds
    else if m = 'o' ∨ m = 'O' then digitsValue 8 ds
    else if m = 'b' ∨ m = 'B' then digitsValue 2 ds
    else none
  | _ => none

/-- The number value of a decimal literal value with a sign. -/
def DecimalValue.toNumber (neg : Bool) : DecimalValue → JSNumber
  | .infinity => .inf neg
  | .decimal m e => ofDecimal neg m e

/-- The production `StrNumericLiteral` with its numeric value; NaN when the
characters do not match it. -/
def strNumericLiteral (cs : List Char) : JSNumber :=
  match nonDecimalIntegerLiteral cs with
  | some n => JSNumber.ofNat n
  | none =>
    match cs with
    | '+' :: r => ((strUnsignedDecimalLiteral r).map (DecimalValue.toNumber false)).getD .nan
    | '-' :: r => ((strUnsignedDecimalLiteral r).map (DecimalValue.toNumber true)).getD .nan
    | r => ((strUnsignedDecimalLiteral r).map (DecimalValue.toNumber false)).getD .nan

/-- The conversion `Number(s)` for a string `s`: white space around the
literal is skipped, the empty (or all white space) string is `+0`, a string
that is no numeric literal is NaN. -/
def stringToNumber (s : String) : JSNumber :=
  let cs := trimChars s.data
  if cs = [] then .finite false 0 0 else strNumericLiteral cs

end JS

namespace CreateListing

open JS

/-! ## The page and the wizard state -/

/-- A browser `File` as far as the wizard looks at it. -/
structure File where
  name : String
  type : String
  size : Nat
deriving DecidableEq, Repr

/-- An entry of `formData.photos`: the file and the data URL read from it. -/
structure Photo where
  file : File
  dataUrl : String
deriving DecidableEq, Repr

/-- A radio button or checkbox: its `value` and whether it is checked. -/
structure Checkable where
  value : String
  checked : Bool
deriving DecidableEq, Repr

/-- One photo slot of the page (`photoSlot<i>` with its input `photo<i>`):
whether its preview is hidden, the `src` of the preview image and the value of
the file input. -/
structure PhotoSlot where
  previewHidden : Bool
  imgSrc : String
  inputValue : String
deriving DecidableEq, Repr

/-- The controls of the page that the wizard reads or writes.  The text fields
hold the `value` of the element with that id; `priceTypeRadios` and
`deliveryBoxes` are the `input[name="priceType"]` and `input[name="delivery"]`
elements in document order; `photoSlots` are the slots wired by
`initPhotoUpload`, addressed by index.  The controls with an id are taken to
be present on the page (the validator dereferences them unguarded). -/
structure Dom where
  title : String
  category : String
  condition : String
  brand : String
  model : String
  description : String
  price : String
  location : String
  priceTypeRadios : List Checkable
  deliveryBoxes : List Checkable
  photoSlots : List PhotoSlot
deriving DecidableEq, Repr

/-- The Draft `formData`. -/
structure Draft where
  photos : List (Option Photo)
  title : String
  category : String
  condition : String
  brand : String
  model : String
  description : String
  tags : List String
  price : Option JSNumber
  priceType : String
  location : String
  delivery : List String
deriving DecidableEq, Repr

/-- The initial value of `formData`. -/
def initialFormData : Draft :=
  { photos := [], title := "", category := "", condition := "", brand := "", model := "",
    description := "", tags := [], price := none, priceType := "fixed", location := "",
    delivery := ["pickup"] }

/-- A call to the presentation collaborator `window.app.ui`. -/
inductive UiCall where
  | showAlert (message kind : String)
  | showFieldError (fieldId message : String)
deriving DecidableEq, Repr

/-- A photo as it comes back from the stored JSON text: `JSON.stringify` writes
the `File` object, which has no enumerable property of its own, as `{}`, so
only the data URL is kept. -/
structure StoredPhoto where
  dataUrl : String
deriving DecidableEq, Repr

/-- The Draft as it comes back from the stored JSON text (`storage.set` writes
`JSON.stringify(value)`, `storage.get` reads `JSON.parse(item)`): strings and
lists of strings are kept, a hole of `photos` comes back as `null`, a photo as
a `StoredPhoto`, and a price that is `null`, NaN or infinite as `null`. -/
structure StoredDraft where
  photos : List (Option StoredPhoto)
  title : String
  category : String
  condition : String
  brand : String
  model : String
  description : String
  tags : List String
  price : Option JSNumber
  priceType : String
  location : String
  delivery : List String
deriving DecidableEq, Repr

/-- A number after `JSON.parse(JSON.stringify(x))`: NaN and the infinities are
written `null`, a zero is written `0` and loses its sign, any other number is
kept. -/
def jsonNumber : JSNumber → Option JSNumber
  | .nan => none
  | .inf _ => none
  | .finite neg sig exp => if sig = 0 then some (.finite false 0 0) else some (.finite neg sig exp)

/-- The Draft after `JSON.parse(JSON.stringify(formData))`. -/
def jsonImage (fd : Draft) : StoredDraft :=
  { photos := fd.photos.map fun p => p.map fun q => { dataUrl := q.dataUrl }
    title := fd.title
    category := fd.category
    condition := fd.condition
    brand := fd.brand
    model := fd.model
    description := fd.description
    tags := fd.tags
    price := fd.price.bind jsonNumber
    priceType := fd.priceType
    location := fd.location
    delivery := fd.delivery }

/-- An entry of the persisted list `listingDrafts` as `storage.get` reads it
back: the object `{ id: Date.now(), ...formData, savedAt: ... }` after its
passage through the JSON text kept in `localStorage`. -/
structure SavedDraft where
  id : Nat
  data : StoredDraft
  savedAt : String
deriving DecidableEq, Repr

/-- The state of the wizard page: the module variables `currentStep` and
`formData`, the page controls, the persisted draft list (what
`storage.get('listingDrafts', [])` returns) and the collaborator calls made so
far (oldest first). -/
structure Wizard where
  currentStep : JSNumber
  formData : Draft
  dom : Dom
  drafts : List SavedDraft
  calls : List UiCall
deriving DecidableEq, Repr

/-- The wizard when the page has loaded with controls `dom` and persisted
drafts `drafts`. -/
def initialWizard (dom : Dom) (drafts : List SavedDraft) : Wizard :=
  { currentStep := 1, formData := initialFormData, dom := dom, drafts := drafts, calls := [] }

/-- The expression `document.querySelector('input[name=...]:checked')?.value`:
the value of the first checked element, `undefined` (here `none`) without one. -/
def checkedValue (inputs : List Checkable) : Option String :=
  (inputs.find? fun c => c.checked).map fun c => c.value

/-- The expression
`document.querySelector('input[name="priceType"]:checked')?.value || 'fixed'`. -/
def selectedPriceType (dom : Dom) : String :=
  match checkedValue dom.priceTypeRadios with
  | some v => orElse v "fixed"
  | none => "fixed"

/-- The expression
`Array.from(document.querySelectorAll('input[name="delivery"]:checked')).map(cb => cb.value)`. -/
def checkedDelivery (dom : Dom) : List String :=
  (dom.deliveryBoxes.filter fun c => c.checked).map fun c => c.value

/-! ## `validateStep` -/

/-- What a run of `validateStep` leaves behind: the returned boolean, the
Draft after the run and the collaborator calls it made, in order. -/
structure Validation where
  isValid : Bool
  formData : Draft
  calls : List UiCall
deriving DecidableEq, Repr

/-- The start of a run: `let isValid = true`, nothing written, nothing shown. -/
def Validation.start (fd : Draft) : Validation :=
  { isValid := true, formData := fd, calls := [] }

/-- The two statements `window.app.ui.showFieldError(fieldId, message);
isValid = false;` of a failing field check. -/
def Validation.fieldError (v : Validation) (fieldId message : String) : Validation :=
  { v with isValid := false, calls := v.calls ++ [.showFieldError fieldId message] }

/-- The two statements `window.app.ui.showAlert(message, 'error');
isValid = false;`. -/
def Validation.alertError (v : Validation) (message : String) : Validation :=
  { v with isValid := false, calls := v.calls ++ [.showAlert message "error"] }

/-- An assignment to fields of `formData`. -/
def Validation.assign (v : Validation) (f : Draft → Draft) : Validation :=
  { v with formData := f v.formData }

/-- Case 1 of `validateStep`: at least one photo required. -/
def validateStep1 (fd : Draft) : Validation :=
  let v := Validation.start fd
  if fd.photos.length = 0 then v.alertError "Please add at least one photo" else v

/-- Case 2 of `validateStep`: the required details, checked and stored field by
field, then the optional fields. -/
def validateStep2 (dom : Dom) (fd : Draft) : Validation :=
  let v := Validation.start fd
  -- Title required
  let title := trim dom.title
  let v := if !truthy title then v.fieldError "title" "Title is required" else v
  let v := v.assign fun d => { d with title := title }
  -- Category required
  let category := dom.category
  let v := if !truthy category then v.fieldError "category" "Please select a category" else v
  let v := v.assign fun d => { d with category := category }
  -- Condition required
  let condition := dom.condition
  let v := if !truthy condition then v.fieldError "condition" "Please select condition" else v
  let v := v.assign fun d => { d with condition := condition }
  -- Description required
  let description := trim dom.description
  let v := if !truthy description then
    v.fieldError "description" "Description is required" else v
  let v := v.assign fun d => { d with description := description }
  -- Optional fields
  let v := v.assign fun d => { d with brand := trim dom.brand }
  v.assign fun d => { d with model := trim dom.model }

/-- Case 3 of `validateStep`: price type, price (unless free), location and
delivery options. -/
def validateStep3 (dom : Dom) (fd : Draft) : Validation :=
  let v := Validation.start fd
  -- Price required (unless free)
  let priceType := selectedPriceType dom
  let v := v.assign fun d => { d with priceType := priceType }
  let v :=
    if priceType ≠ "free" then
      let price := dom.price
      let v := if !truthy price || (stringToNumber price).leZero then
        v.fieldError "price" "Please enter a valid price" else v
      v.assign fun d => { d with price := some (stringToNumber price) }
    else
      v.assign fun d => { d with price := some 0 }
  -- Location required
  let location := trim dom.location
  let v := if !truthy location then v.fieldError "location" "Location is required" else v
  let v := v.assign fun d => { d with location := location }
  -- Delivery options
  v.assign fun d => { d with delivery := checkedDelivery dom }

/-- The function `validateStep(step)`, run on the page `dom` with Draft `fd`;
a step matching none of the cases 1, 2, 3 passes with nothing done. -/
def validateStep (step : JSNumber) (dom : Dom) (fd : Draft) : Validation :=
  if step.strictEq 1 then validateStep1 fd
  else if step.strictEq 2 then validateStep2 dom fd
  else if step.strictEq 3 then validateStep3 dom fd
  else Validation.start fd

/-- A call `validateStep(step)` as a transition of the wizard, with the
returned boolean. -/
def Wizard.runValidateStep (step : JSNumber) (w : Wizard) : Bool × Wizard :=
  let v := validateStep step w.dom w.formData
  (v.isValid, { w with formData := v.formData, calls := w.calls ++ v.calls })

/-! ## Photos -/

/-- The assignment `a[i] = v` on an array that may have holes: an index past
the end first extends the array with holes. -/
def arraySet {α : Type} (a : List (Option α)) (i : Nat) (v : α) : List (Option α) :=
  if i < a.length then a.set i (some v)
  else a ++ List.replicate (i - a.length) none ++ [some v]

/-- The statement `delete a[i]`: the element becomes a hole, the length stays. -/
def arrayDelete {α : Type} (a : List (Option α)) (i : Nat) : List (Option α) :=
  a.set i none

/-- The call `a.filter(Boolean)` on an array of objects: holes are skipped,
every object is truthy and kept; the result is dense. -/
def filterBoolean {α : Type} (a : List (Option α)) : List (Option α) :=
  a.filter Option.isSome

/-- Write to the controls of slot `index`. -/
def Dom.updateSlot (dom : Dom) (index : Nat) (f : PhotoSlot → PhotoSlot) : Dom :=
  { dom with photoSlots := dom.photoSlots.modify f index }

/-- The handler `handlePhotoUpload(event, index)` for `event.target.files[0] =
file`, run together with the `onload` callback of its `FileReader`, which
receives `dataUrl`.  A file of the wrong type or size is reported and dropped.
The callback looks the slot up first, so without a slot `index` it stops (on a
`TypeError`) before anything is stored. -/
def handlePhotoUpload (file : Option File) (index : Nat) (dataUrl : String) (w : Wizard) :
    Wizard :=
  match file with
  | none => w
  | some file =>
    -- Validate file type
    if !startsWith file.type "image/" then
      { w with calls := w.calls ++ [.showAlert "Please upload an image file" "error"] }
    -- Validate file size (max 5MB)
    else if file.size > 5 * 1024 * 1024 then
      { w with calls := w.calls ++ [.showAlert "Image must be less than 5MB" "error"] }
    else if index < w.dom.photoSlots.length then
      { w with
        dom := w.dom.updateSlot index fun s => { s with imgSrc := dataUrl, previewHidden := false }
        -- Store photo data
        formData := { w.formData with
          photos := arraySet w.formData.photos index { file := file, dataUrl := dataUrl } } }
    else w

/-- The function `removePhoto(index)`: hide the preview of the slot, clear its
input, delete the entry and re-index the photos array.  Without a slot `index`
it stops (on a `TypeError`) before anything is changed. -/
def removePhoto (index : Nat) (w : Wizard) : Wizard :=
  if index < w.dom.photoSlots.length then
    { w with
      dom := w.dom.updateSlot index fun s => { s with previewHidden := true, inputValue := "" }
      formData := { w.formData with
        photos := filterBoolean (arrayDelete w.formData.photos index) } }
  else w

/-! ## Collecting, saving and publishing -/

/-- The expression `x || null` on a number. -/
def numberOrNull (x : JSNumber) : Option JSNumber := if x.truthy then some x else none

/-- The function `collectFormData()`: every control is read into the Draft;
tags and photos are not touched. -/
def collectFormData (dom : Dom) (fd : Draft) : Draft :=
  { fd with
    title := orElse (trim dom.title) ""
    category := orElse dom.category ""
    condition := orElse dom.condition ""
    brand := orElse (trim dom.brand) ""
    model := orElse (trim dom.model) ""
    description := orElse (trim dom.description) ""
    price := numberOrNull (stringToNumber dom.price)
    priceType := selectedPriceType dom
    location := orElse (trim dom.location) ""
    delivery := checkedDelivery dom }

/-- A call `collectFormData()` as a transition of the wizard. -/
def Wizard.runCollectFormData (w : Wizard) : Wizard :=
  { w with formData := collectFormData w.dom w.formData }

/-- The function `saveDraft()`, with `now` the value of `Date.now()` and
`savedAt` the value of `new Date().toISOString()` at the call, and `accepted`
telling whether `localStorage.setItem` takes the JSON text of the grown list.
When the text does not fit the room left in the storage (as with a Draft
holding a photo of a few megabytes, whose data URL is part of the text),
`setItem` throws a `QuotaExceededError`; neither `storage.set` nor `saveDraft`
catches it, so the call ends there: the form data have been collected, nothing
is persisted and no alert is shown. -/
def saveDraft (now : Nat) (savedAt : String) (accepted : Bool) (w : Wizard) : Wizard :=
  -- Collect all form data
  let w := w.runCollectFormData
  -- Save to localStorage
  let drafts := w.drafts
  let draft : SavedDraft := { id := now, data := jsonImage w.formData, savedAt := savedAt }
  if accepted then
    { w with
      drafts := drafts ++ [draft]
      calls := w.calls ++ [.showAlert "Draft saved successfully!" "success"] }
  else w

/-- The function `publishListing()` up to its simulated submission: validate the
final step, give up when it fails, otherwise collect the form data and report
success. -/
def publishListing (w : Wizard) : Wizard :=
  -- Validate final step
  let r := w.runValidateStep 4
  if !r.1 then r.2
  else
    let w := r.2.runCollectFormData
    { w with calls := w.calls ++ [.showAlert "Listing published successfully!" "success"] }

/-! ## Sequences of wizard operations -/

/-- The photo operations a user can trigger: choosing a file for a slot, and
pressing the remove button of a slot. -/
inductive PhotoAction where
  | upload (file : Option File) (index : Nat) (dataUrl : String)
  | remove (index : Nat)
deriving DecidableEq, Repr

/-- Run one photo operation. -/
def PhotoAction.run (w : Wizard) : PhotoAction → Wizard
  | .upload file index dataUrl => handlePhotoUpload file index dataUrl w
  | .remove index => removePhoto index w

/-- Run photo operations from left to right. -/
def runPhotoActions (w : Wizard) (acts : List PhotoAction) : Wizard :=
  acts.foldl PhotoAction.run w

/-- The operations that write the pricing fields of the Draft, and the user
editing the controls of the page in between. -/
inductive DraftAction where
  | validate (step : JSNumber)
  | collect
  | save (now : Nat) (savedAt : String) (accepted : Bool)
  | publish
  | edit (dom : Dom)
deriving DecidableEq, Repr

/-- Run one Draft operation. -/
def DraftAction.run (w : Wizard) : DraftAction → Wizard
  | .validate step => (w.runValidateStep step).2
  | .collect => w.runCollectFormData
  | .save now savedAt accepted => saveDraft now savedAt accepted w
  | .publish => publishListing w
  | .edit dom => { w with dom := dom }

/-- Run Draft operations from left to right. -/
def runDraftActions (w : Wizard) (acts : List DraftAction) : Wizard :=
  acts.foldl DraftAction.run w

/-- The slot index a photo operation is made with. -/
def PhotoAction.index : PhotoAction → Nat
  | .upload _ index _ => index
  | .remove index => index

/-! ## Tags -/

/-- The function `addTag(tag)`.  The closing `renderTags()` rewrites the markup
of `tagsContainer` from `formData.tags`; it reads nothing else and writes no
control held in `Dom`. -/
def addTag (tag : String) (w : Wizard) : Wizard :=
  if !truthy tag || w.formData.tags.contains tag || decide (w.formData.tags.length ≥ 10) then w
  else { w with formData := { w.formData with tags := w.formData.tags ++ [tag] } }

/-- The function `removeTag(tag)` (followed by the same `renderTags()`). -/
def removeTag (tag : String) (w : Wizard) : Wizard :=
  { w with formData := { w.formData with tags := w.formData.tags.filter fun t => t != tag } }

/-- The tag operations: `addTag` (Enter or blur in the tags input) and
`removeTag` (the remove mark of a rendered tag). -/
inductive TagAction where
  | add (tag : String)
  | remove (tag : String)
deriving DecidableEq, Repr

/-- Run one tag operation. -/
def TagAction.run (w : Wizard) : TagAction → Wizard
  | .add tag => addTag tag w
  | .remove tag => removeTag tag w

/-- Run tag operations from left to right. -/
def runTagActions (w : Wizard) (acts : List TagAction) : Wizard :=
  acts.foldl TagAction.run w

/-! ## Navigation -/

/-- The function `goToStep(step)`.  Besides the assignment `currentStep = step`
it only restyles the page: it hides every `.form-section` and shows the one
with id `step<step>` if there is one, marks the `.progress-step` elements,
scrolls to the top and, for step 4, runs `updateReviewPreview()`, which reads
`formData` and writes the preview elements.  None of this touches `formData`
or a control held in `Dom`, so it is left out of the state. -/
def goToStep (step : JSNumber) (w : Wizard) : Wizard :=
  { w with currentStep := step }

/-- The expression `Number(btn.dataset.next)` (or `.prev`): the data attribute
is a string, or `undefined` (here `none`) when the button has none, and
`Number(undefined)` is NaN. -/
def datasetNumber (attr : Option String) : JSNumber :=
  match attr with
  | some s => stringToNumber s
  | none => .nan

/-- The click handler of a `.btn-next` button with data attribute `next`. -/
def clickNext (next : Option String) (w : Wizard) : Wizard :=
  let nextStep := datasetNumber next
  let r := w.runValidateStep w.currentStep
  if r.1 then goToStep nextStep r.2 else r.2

/-- The click handler of a `.btn-prev` button with data attribute `prev`. -/
def clickPrev (prev : Option String) (w : Wizard) : Wizard :=
  let prevStep := datasetNumber prev
  goToStep prevStep w

/-! ## Example data -/

/-- The page of the examples: a bike offered at a fixed price, with eight
empty photo slots. -/
def bikeDom : Dom :=
  { title := "Bike", category := "sports", condition := "good", brand := "", model := "",
    description := "A bike.", price := "120", location := "Springfield",
    priceTypeRadios := [⟨"fixed", true⟩, ⟨"free", false⟩],
    deliveryBoxes := [⟨"pickup", true⟩, ⟨"shipping", false⟩],
    photoSlots := List.replicate 8 ⟨true, "", ""⟩ }

/-- The example page with the price type switched to free while the price
field still holds a number. -/
def freeDom : Dom :=
  { bikeDom with price := "12", priceTypeRadios := [⟨"fixed", false⟩, ⟨"free", true⟩] }

/-- A Draft that already holds a valid price of 5. -/
def pricedFormData : Draft := { initialFormData with price := some (.finite false 5 0) }

/-- An image file of the examples, told apart by its name. -/
def imageFile (name : String) : File := { name := name, type := "image/png", size := 2048 }

/-- The example page after uploads of a.png and b.png into slots 0 and 1. -/
def twoPhotos : Wizard :=
  runPhotoActions (initialWizard bikeDom [])
    [.upload (some (imageFile "a.png")) 0 "data:a",
      .upload (some (imageFile "b.png")) 1 "data:b"]

/-- The example page after uploads of a.png, b.png and c.png into slots 0, 1
and 2. -/
def threePhotos : Wizard :=
  runPhotoActions twoPhotos [.upload (some (imageFile "c.png")) 2 "data:c"]

/-- The data URL of a PNG file of 4 MiB: the media type and 5592408 base64
characters. -/
def bigDataUrl : String :=
  "data:image/png;base64," ++ String.mk (List.replicate 5592408 'A')

/-- The example page after the upload of a PNG file of 4 MiB (below the 5 MB
ceiling of `handlePhotoUpload`) into slot 0. -/
def bigPhoto : Wizard :=
  handlePhotoUpload (some { name := "big.png", type := "image/png", size := 4194304 }) 0
    bigDataUrl (initialWizard bikeDom [])

/-- The data URLs of the photos held by the Draft, in array order. -/
def heldDataUrls (w : Wizard) : List String :=
  w.formData.photos.filterMap fun p => p.map fun q => q.dataUrl

/-- The image sources of the slots whose preview is visible, in slot order. -/
def shownPreviews (w : Wizard) : List String :=
  (w.dom.photoSlots.filter fun s => !s.previewHidden).map fun s => s.imgSrc

end CreateListing

namespace JS

/-! ## Strings as UTF-16 code units, and the order on numbers -/

/-- The UTF-16 code units of a character: one unit in the Basic Multilingual
Plane, a surrogate pair above it. -/
def charUnits (c : Char) : List Nat :=
  if c.toNat < 0x10000 then [c.toNat]
  else [0xD800 + (c.toNat - 0x10000) / 0x400, 0xDC00 + (c.toNat - 0x10000) % 0x400]

/-- The UTF-16 code units of a string; the property `length` of a JavaScript
string is the length of this list, and `substring` cuts it. -/
def utf16 (s : String) : List Nat := s.data.flatMap charUnits

/-- White space, on code units (the same code points as `isWhiteSpace`). -/
def isWhiteSpaceUnit (u : Nat) : Bool :=
  decide (u ∈ [0x09, 0x0A, 0x0B, 0x0C, 0x0D, 0x20, 0xA0, 0x1680,
      0x2028, 0x2029, 0x202F, 0x205F, 0x3000, 0xFEFF])
    || (decide (0x2000 ≤ u) && decide (u ≤ 0x200A))

/-- The method `String.prototype.trim`, on code units. -/
def trimUnits (us : List Nat) : List Nat :=
  ((us.dropWhile isWhiteSpaceUnit).reverse.dropWhile isWhiteSpaceUnit).reverse

/-- The value of a finite number as an integer multiple of `2 ^ m`, for an
exponent `m` not above its own. -/
def scaledValue (neg : Bool) (sig : Nat) (exp m : Int) : Int :=
  (if neg then -1 else 1) * (sig : Int) * 2 ^ (exp - m).toNat

/-- The comparison `x < y` on numbers: false when either is NaN, the two zeros
are equal. -/
def JSNumber.lt : JSNumber → JSNumber → Bool
  | .nan, _ => false
  | _, .nan => false
  | .inf n1, .inf n2 => n1 && !n2
  | .inf n1, .finite _ _ _ => n1
  | .finite _ _ _, .inf n2 => !n2
  | .finite n1 s1 e1, .finite n2 s2 e2 =>
    decide (scaledValue n1 s1 e1 (min e1 e2) < scaledValue n2 s2 e2 (min e1 e2))

/-- The comparison `x > y` on numbers. -/
def JSNumber.gt (x y : JSNumber) : Bool := y.lt x

/-- A regular expression of the shape used by the validators: a literal
character, a one-or-more repetition of a character class, or a sequence. -/
inductive Regex where
  | char (c : Char)
  | classPlus (p : Char → Bool)
  | seq (a b : Regex)

/-- Whether the whole list of characters matches the expression (the method
`test` of an expression anchored with `^` and `$`). -/
def Regex.fullMatch : Regex → List Char → Bool
  | .char c, cs => cs == [c]
  | .classPlus p, cs => !cs.isEmpty && cs.all p
  | .seq a b, cs =>
    (List.range (cs.length + 1)).any fun i => a.fullMatch (cs.take i) && b.fullMatch (cs.drop i)

end JS

namespace Common

open JS

/-! ## `frontend/js/common.js`: text helpers and validators -/

/-- The function `ui.truncateText(text, length)` on the code units of `text`,
for a whole number `length`. -/
def truncateText (text : List Nat) (length : Nat) : List Nat :=
  if text.length ≤ length then text
  else trimUnits (text.take length) ++ utf16 "..."

/-- The table `intervals` of `ui.formatRelativeTime`, in its key order. -/
def intervals : List (String × Int) :=
  [("year", 31536000), ("month", 2592000), ("week", 604800), ("day", 86400),
    ("hour", 3600), ("minute", 60)]

/-- The loop of `ui.formatRelativeTime` over the remaining table entries, with
the closing `return 'Just now'`.  The quotient is `Math.floor(seconds /
secondsInUnit)`: integer division by a positive number rounds down. -/
def formatLoop : List (String × Int) → Int → String
  | [], _ => "Just now"
  | (unit, secondsInUnit) :: rest, seconds =>
    let interval := seconds / secondsInUnit
    if interval ≥ 1 then
      toString interval ++ " " ++ unit ++ (if interval > 1 then "s" else "") ++ " ago"
    else formatLoop rest seconds

/-- The function `ui.formatRelativeTime(date)`, with `now` and `date` given as
time values in milliseconds. -/
def formatRelativeTime (now date : Int) : String :=
  let seconds := (now - date) / 1000
  formatLoop intervals seconds

/-- The class `[^\s@]`. -/
def notSpaceNorAt (c : Char) : Bool := !(isWhiteSpace c || c == '@')

/-- The expression `/^[^\s@]+@[^\s@]+\.[^\s@]+$/` of `validate.email`. -/
def emailRegex : Regex :=
  .seq (.classPlus notSpaceNorAt)
    (.seq (.char '@') (.seq (.classPlus notSpaceNorAt) (.seq (.char '.')
      (.classPlus notSpaceNorAt))))

/-- The function `validate.email(email)`. -/
def email (s : String) : Bool := emailRegex.fullMatch s.data

/-- The object returned by `validate.password`. -/
structure PasswordResult where
  isValid : Bool
  hasLength : Bool
  hasUpper : Bool
  hasLower : Bool
  hasNumber : Bool
  strength : Nat
deriving DecidableEq, Repr

/-- The function `validate.password(password)`; an unanchored class such as
`/[A-Z]/` tests whether some character lies in the class. -/
def password (pw : String) : PasswordResult :=
  let hasLength := decide ((utf16 pw).length ≥ 8)
  let hasUpper := pw.data.any fun c => decide (65 ≤ c.toNat) && decide (c.toNat ≤ 90)
  let hasLower := pw.data.any fun c => decide (97 ≤ c.toNat) && decide (c.toNat ≤ 122)
  let hasNumber := pw.data.any fun c => decide (48 ≤ c.toNat) && decide (c.toNat ≤ 57)
  { isValid := hasLength && hasUpper && hasLower && hasNumber
    hasLength := hasLength
    hasUpper := hasUpper
    hasLower := hasLower
    hasNumber := hasNumber
    strength := ([hasLength, hasUpper, hasLower, hasNumber].filter id).length }

end Common

namespace Listings

open JS

/-! ## `frontend/js/listings.js`: the listing filter -/

/-- A listing as far as `filterListings` reads it; `description` may be
missing. -/
structure Listing where
  title : String
  description : Option String
  category : String
  condition : String
  price : JSNumber
deriving DecidableEq, Repr

/-- The filter state `currentFilters`; `priceMin` and `priceMax` are `null`
(here `none`) or a number. -/
structure Filters where
  category : String
  priceMin : Option JSNumber
  priceMax : Option JSNumber
  condition : List String
  location : String
  distance : JSNumber
  search : String
  sort : String
  page : JSNumber
deriving DecidableEq, Repr

/-- The initial value of `currentFilters`. -/
def initialFilters : Filters :=
  { category := "all", priceMin := none, priceMax := none, condition := [], location := "",
    distance := .finite false 25 0, search := "", sort := "newest", page := .finite false 1 0 }

/-- The change handlers of the price inputs:
`priceMax.value ? Number(priceMax.value) : null`. -/
def priceInput (value : String) : Option JSNumber :=
  if truthy value then some (stringToNumber value) else none

/-- Truthiness of a price bound: `null`, the zeros and NaN are falsy. -/
def boundTruthy : Option JSNumber → Bool
  | none => false
  | some x => x.truthy

/-- The method `String.prototype.includes`. -/
def includes (s sub : String) : Bool := decide (sub.data <:+: s.data)

/-- The callback of `filterListings`: whether a listing is kept.  The method
`String.prototype.toLowerCase` is taken as a parameter. -/
def keeps (toLowerCase : String → String) (f : Filters) (l : Listing) : Bool :=
  -- Category filter
  if f.category ≠ "all" ∧ l.category ≠ f.category then false
  -- Price filters
  else if boundTruthy f.priceMin && l.price.lt (f.priceMin.getD .nan) then false
  else if boundTruthy f.priceMax && l.price.gt (f.priceMax.getD .nan) then false
  -- Condition filter
  else if f.condition.length > 0 ∧ ¬ f.condition.contains l.condition then false
  -- Search filter
  else if truthy f.search then
    let search := toLowerCase f.search
    let matchesTitle := includes (toLowerCase l.title) search
    let matchesDescription := match l.description with
      | some d => includes (toLowerCase d) search
      | none => false
    if !matchesTitle && !matchesDescription then false else true
  else true

/-- The function `filterListings(listings)` under the filter state `f`. -/
def filterListings (toLowerCase : String → String) (f : Filters) (listings : List Listing) :
    List Listing :=
  listings.filter (keeps toLowerCase f)

end Listings

/-! # Properties -/

namespace CreateListing

open JS

/-! ## Auxiliary facts -/

theorem truthy_iff (s : String) : truthy s = true ↔ s ≠ "" := by
  simp [truthy]

theorem truthy_eq_false_iff (s : String) : truthy s = false ↔ s = "" := by
  simp [truthy]

theorem number_zero : (0 : JSNumber) = .finite false 0 0 := by rfl

theorem number_one : (1 : JSNumber) = .finite false 1 0 := by rfl

theorem number_two : (2 : JSNumber) = .finite false 1 1 := by rfl

theorem number_three : (3 : JSNumber) = .finite false 3 0 := by rfl

theorem number_four : (4 : JSNumber) = .finite false 1 2 := by rfl

theorem validateStep_one (dom : Dom) (fd : Draft) :
    validateStep 1 dom fd = validateStep1 fd := by
  rw [validateStep, number_one, number_two, number_three]
  rfl

theorem validateStep_two (dom : Dom) (fd : Draft) :
    validateStep 2 dom fd = validateStep2 dom fd := by
  rw [validateStep, number_one, number_two, number_three]
  rfl

theorem validateStep_three (dom : Dom) (fd : Draft) :
    validateStep 3 dom fd = validateStep3 dom fd := by
  rw [validateStep, number_one, number_two, number_three]
  rfl

theorem validateStep_four (dom : Dom) (fd : Draft) :
    validateStep 4 dom fd = Validation.start fd := by
  rw [validateStep, number_four, number_one, number_two, number_three]
  rfl

/-- The boolean returned by case 2 of `validateStep`. -/
theorem validateStep2_isValid (dom : Dom) (fd : Draft) :
    (validateStep2 dom fd).isValid =
      (truthy (trim dom.title) && truthy dom.category && truthy dom.condition
        && truthy (trim dom.description)) := by
  dsimp only [validateStep2]
  generalize truthy (trim dom.title) = a
  generalize truthy dom.category = b
  generalize truthy dom.condition = c
  generalize truthy (trim dom.description) = d
  cases a <;> cases b <;> cases c <;> cases d <;>
    simp [Validation.start, Validation.fieldError, Validation.assign]

/-- The Draft left by case 2 of `validateStep`. -/
theorem validateStep2_formData (dom : Dom) (fd : Draft) :
    (validateStep2 dom fd).formData =
      { fd with
        title := trim dom.title, category := dom.category, condition := dom.condition,
        description := trim dom.description, brand := trim dom.brand,
        model := trim dom.model } := by
  dsimp only [validateStep2]
  generalize truthy (trim dom.title) = a
  generalize truthy dom.category = b
  generalize truthy dom.condition = c
  generalize truthy (trim dom.description) = d
  cases a <;> cases b <;> cases c <;> cases d <;>
    simp [Validation.start, Validation.fieldError, Validation.assign]

/-- The collaborator calls made by case 2 of `validateStep`. -/
theorem validateStep2_calls (dom : Dom) (fd : Draft) :
    (validateStep2 dom fd).calls =
      (if trim dom.title = "" then [UiCall.showFieldError "title" "Title is required"] else [])
      ++ (if dom.category = "" then
          [UiCall.showFieldError "category" "Please select a category"] else [])
      ++ (if dom.condition = "" then
          [UiCall.showFieldError "condition" "Please select condition"] else [])
      ++ (if trim dom.description = "" then
          [UiCall.showFieldError "description" "Description is required"] else []) := by
  simp only [← truthy_eq_false_iff]
  dsimp only [validateStep2]
  generalize truthy (trim dom.title) = a
  generalize truthy dom.category = b
  generalize truthy dom.condition = c
  generalize truthy (trim dom.description) = d
  cases a <;> cases b <;> cases c <;> cases d <;>
    simp [Validation.start, Validation.fieldError, Validation.assign]

/-- The boolean returned by case 3 of `validateStep`. -/
theorem validateStep3_isValid (dom : Dom) (fd : Draft) :
    (validateStep3 dom fd).isValid =
      (!(decide (selectedPriceType dom ≠ "free") &&
        (!truthy dom.price || (stringToNumber dom.price).leZero))
        && truthy (trim dom.location)) := by
  dsimp only [validateStep3]
  generalize truthy (trim dom.location) = c
  generalize (!truthy dom.price || (stringToNumber dom.price).leZero) = b
  by_cases h : selectedPriceType dom = "free" <;> cases b <;> cases c <;>
    simp [h, Validation.start, Validation.fieldError, Validation.assign]

/-- The Draft left by case 3 of `validateStep`. -/
theorem validateStep3_formData (dom : Dom) (fd : Draft) :
    (validateStep3 dom fd).formData =
      { fd with
        priceType := selectedPriceType dom
        price := if selectedPriceType dom ≠ "free" then some (stringToNumber dom.price)
          else some 0
        location := trim dom.location
        delivery := checkedDelivery dom } := by
  dsimp only [validateStep3]
  generalize truthy (trim dom.location) = c
  generalize (!truthy dom.price || (stringToNumber dom.price).leZero) = b
  by_cases h : selectedPriceType dom = "free" <;> cases b <;> cases c <;>
    simp [h, Validation.start, Validation.fieldError, Validation.assign]

/-- The collaborator calls made by case 3 of `validateStep`. -/
theorem validateStep3_calls (dom : Dom) (fd : Draft) :
    (validateStep3 dom fd).calls =
      (if (decide (selectedPriceType dom ≠ "free") &&
        (!truthy dom.price || (stringToNumber dom.price).leZero)) then
        [UiCall.showFieldError "price" "Please enter a valid price"] else [])
      ++ (if trim dom.location = "" then
        [UiCall.showFieldError "location" "Location is required"] else []) := by
  simp only [← truthy_eq_false_iff]
  dsimp only [validateStep3]
  generalize truthy (trim dom.location) = c
  generalize (!truthy dom.price || (stringToNumber dom.price).leZero) = b
  by_cases h : selectedPriceType dom = "free" <;> cases b <;> cases c <;>
    simp [h, Validation.start, Validation.fieldError, Validation.assign]

/-! ## Step 1: the photos -/

theorem arraySet_mem {α : Type} (a : List (Option α)) (i : Nat) (v : α) :
    some v ∈ arraySet a i v := by
  unfold arraySet
  split
  · next h =>
    refine List.mem_iff_getElem.2 ⟨i, by simpa using h, ?_⟩
    simp
  · simp

theorem filterBoolean_ne_nil {α : Type} (a : List (Option α)) (h : filterBoolean a ≠ []) :
    ∃ p, some p ∈ filterBoolean a := by
  obtain ⟨x, hx⟩ := List.exists_mem_of_ne_nil _ h
  have hs : x.isSome = true := (List.mem_filter.1 hx).2
  obtain ⟨p, rfl⟩ := Option.isSome_iff_exists.1 hs
  exact ⟨p, hx⟩

/-- One photo operation keeps the photos array either empty or holding a photo. -/
theorem photos_invariant_step (w : Wizard) (act : PhotoAction)
    (h : w.formData.photos ≠ [] → ∃ p, some p ∈ w.formData.photos) :
    (act.run w).formData.photos ≠ [] → ∃ p, some p ∈ (act.run w).formData.photos := by
  cases act with
  | upload file index dataUrl =>
    cases file with
    | none => exact h
    | some f =>
      simp only [PhotoAction.run, handlePhotoUpload]
      split
      · exact h
      · split
        · exact h
        · split
          · intro _
            exact ⟨_, arraySet_mem _ _ _⟩
          · exact h
  | remove index =>
    simp only [PhotoAction.run, removePhoto]
    split
    · exact filterBoolean_ne_nil _
    · exact h

/-- Any run of photo operations keeps the photos array either empty or holding
a photo. -/
theorem photos_invariant_run (acts : List PhotoAction) (w : Wizard)
    (h : w.formData.photos ≠ [] → ∃ p, some p ∈ w.formData.photos) :
    (runPhotoActions w acts).formData.photos ≠ [] →
      ∃ p, some p ∈ (runPhotoActions w acts).formData.photos := by
  induction acts generalizing w with
  | nil => exact h
  | cons act rest ih => exact ih (act.run w) (photos_invariant_step w act h)

/-- Claim C3: in every state reached from the initial state by photo uploads
and `removePhoto` calls, `validateStep(1)` returns true if and only if the
Draft holds at least one photo, and it leaves the Draft unchanged. -/
theorem C3_validateStep1_photos (dom : Dom) (drafts : List SavedDraft)
    (acts : List PhotoAction) :
    ((validateStep 1 (runPhotoActions (initialWizard dom drafts) acts).dom
        (runPhotoActions (initialWizard dom drafts) acts).formData).isValid = true ↔
      ∃ p, some p ∈ (runPhotoActions (initialWizard dom drafts) acts).formData.photos) ∧
    (validateStep 1 (runPhotoActions (initialWizard dom drafts) acts).dom
        (runPhotoActions (initialWizard dom drafts) acts).formData).formData =
      (runPhotoActions (initialWizard dom drafts) acts).formData := by
  have inv := photos_invariant_run acts (initialWizard dom drafts)
    (fun h => absurd rfl h)
  generalize runPhotoActions (initialWizard dom drafts) acts = w at inv ⊢
  rw [validateStep_one]
  unfold validateStep1
  by_cases hp : w.formData.photos = []
  · simp [hp, Validation.start, Validation.alertError]
  · have hlen : w.formData.photos.length ≠ 0 := by simpa using hp
    simp only [hlen, if_false, Validation.start, true_iff, and_true]
    exact inv hp

/-! ## Step 2: the details -/

/-- Claim C1, as stated, fails: with a category consisting of a single blank
(empty after trimming) and the other required fields filled,
`validateStep(2)` returns true, because category and condition are tested as
read, without trimming. -/
theorem C1_counterexample :
    ¬ ((validateStep 2 { bikeDom with category := " " } initialFormData).isValid = true ↔
        (trim "Bike" ≠ "" ∧ trim " " ≠ "" ∧ trim "good" ≠ "" ∧ trim "A bike." ≠ "")) := by
  rw [validateStep_two]
  decide

/-- Claim C1 (amended): for every content of the fields, `validateStep(2)`
returns true if and only if title and description are non-empty after
trimming white space and category and condition are non-empty as read; brand
and model play no role; title "Bike", category "sports", condition "good",
description "A bike." gives true. -/
theorem C1_validateStep2_valid_iff :
    (∀ (dom : Dom) (fd : Draft),
      (validateStep 2 dom fd).isValid = true ↔
        (trim dom.title ≠ "" ∧ dom.category ≠ "" ∧ dom.condition ≠ "" ∧
          trim dom.description ≠ "")) ∧
    (∀ (dom : Dom) (fd : Draft),
      (validateStep 2
        { dom with
          title := "Bike", category := "sports", condition := "good",
          description := "A bike." } fd).isValid = true) := by
  have key : ∀ (dom : Dom) (fd : Draft),
      (validateStep 2 dom fd).isValid = true ↔
        (trim dom.title ≠ "" ∧ dom.category ≠ "" ∧ dom.condition ≠ "" ∧
          trim dom.description ≠ "") := by
    intro dom fd
    rw [validateStep_two, validateStep2_isValid]
    simp only [Bool.and_eq_true, truthy_iff, and_assoc]
  refine ⟨key, fun dom fd => ?_⟩
  rw [key]
  dsimp only
  decide

/-- Claim C6: the fields on which `validateStep(2)` calls `showFieldError` are
exactly the required fields that fail their check (title and description
empty after trimming, category and condition empty); with the title empty and
all else filled it returns false and the only call is a field error on the
title field. -/
theorem C6_validateStep2_field_errors :
    (∀ (dom : Dom) (fd : Draft) (fieldId : String),
      (∃ message, UiCall.showFieldError fieldId message ∈ (validateStep 2 dom fd).calls) ↔
        ((fieldId = "title" ∧ trim dom.title = "") ∨
          (fieldId = "category" ∧ dom.category = "") ∨
          (fieldId = "condition" ∧ dom.condition = "") ∨
          (fieldId = "description" ∧ trim dom.description = ""))) ∧
    (∀ (dom : Dom) (fd : Draft),
      (validateStep 2
        { dom with
          title := "", category := "sports", condition := "good",
          description := "A bike." } fd).isValid = false ∧
      (validateStep 2
        { dom with
          title := "", category := "sports", condition := "good",
          description := "A bike." } fd).calls =
        [UiCall.showFieldError "title" "Title is required"]) := by
  constructor
  · intro dom fd fieldId
    rw [validateStep_two, validateStep2_calls]
    by_cases h1 : trim dom.title = "" <;> by_cases h2 : dom.category = "" <;>
      by_cases h3 : dom.condition = "" <;> by_cases h4 : trim dom.description = "" <;>
      simp [h1, h2, h3, h4, exists_or]
  · intro dom fd
    rw [validateStep_two, validateStep2_isValid, validateStep2_calls]
    dsimp only
    constructor <;> decide

/-- Claim C8: `validateStep(2)` has no rollback: after the call the Draft holds
the title and description read from the form, trimmed, and the category and
condition as read, whatever the call returns; on the example page with the
title emptied the call returns false and still has written the category. -/
theorem C8_validateStep2_writes_always :
    (∀ (dom : Dom) (fd : Draft),
      (validateStep 2 dom fd).formData.title = trim dom.title ∧
      (validateStep 2 dom fd).formData.category = dom.category ∧
      (validateStep 2 dom fd).formData.condition = dom.condition ∧
      (validateStep 2 dom fd).formData.description = trim dom.description) ∧
    ((validateStep 2 { bikeDom with title := "" } initialFormData).isValid = false ∧
      (validateStep 2 { bikeDom with title := "" } initialFormData).formData.category
        = "sports" ∧
      initialFormData.category = "") := by
  constructor
  · intro dom fd
    rw [validateStep_two, validateStep2_formData]
    exact ⟨rfl, rfl, rfl, rfl⟩
  · rw [validateStep_two, validateStep2_isValid, validateStep2_formData]
    decide

/-- Claim C9, as stated, fails: a brand typed with a leading and a trailing
blank is not stored verbatim; the Draft holds it trimmed. -/
theorem C9_counterexample :
    (validateStep 2 { bikeDom with brand := " Trek " } initialFormData).formData.brand
      ≠ " Trek " := by
  rw [validateStep_two, validateStep2_formData]
  decide

/-- Claim C9 (amended): after `validateStep(2)` the Draft's brand and model are
the texts of the brand and model fields with leading and trailing white space
removed, and the returned boolean does not depend on what those two fields
hold. -/
theorem C9_validateStep2_brand_model :
    (∀ (dom : Dom) (fd : Draft),
      (validateStep 2 dom fd).formData.brand = trim dom.brand ∧
      (validateStep 2 dom fd).formData.model = trim dom.model) ∧
    (∀ (dom : Dom) (fd : Draft) (brand model : String),
      (validateStep 2 { dom with brand := brand, model := model } fd).isValid =
        (validateStep 2 dom fd).isValid) := by
  constructor
  · intro dom fd
    rw [validateStep_two, validateStep2_formData]
    exact ⟨rfl, rfl⟩
  · intro dom fd brand model
    rw [validateStep_two, validateStep_two, validateStep2_isValid, validateStep2_isValid]

/-! ## Step 3: pricing and location -/

/-- Claim C2 (the code at the failing input): with the fixed price type
selected and a location given, the price text "abc" is not a number
(`Number("abc")` is NaN), yet `validateStep(3)` returns true, signals no field
error and stores NaN as the price, because `NaN <= 0` is false; the price text
"0" is rejected. -/
theorem C2_non_numeric_price_accepted :
    stringToNumber "abc" = JSNumber.nan ∧
    selectedPriceType { bikeDom with price := "abc" } = "fixed" ∧
    (validateStep 3 { bikeDom with price := "abc" } initialFormData).isValid = true ∧
    (validateStep 3 { bikeDom with price := "abc" } initialFormData).calls = [] ∧
    (validateStep 3 { bikeDom with price := "abc" } initialFormData).formData.price
      = some JSNumber.nan ∧
    (validateStep 3 { bikeDom with price := "0" } initialFormData).isValid = false := by
  have h : stringToNumber "abc" = JSNumber.nan := by decide
  have h0 : stringToNumber "0" = JSNumber.finite false 0 0 := by decide
  refine ⟨h, by decide, ?_, ?_, ?_, ?_⟩
  · rw [validateStep_three, validateStep3_isValid]
    dsimp only
    rw [h]
    decide
  · rw [validateStep_three, validateStep3_calls]
    dsimp only
    rw [h]
    decide
  · rw [validateStep_three, validateStep3_formData]
    dsimp only
    rw [h]
    decide
  · rw [validateStep_three, validateStep3_isValid]
    dsimp only
    rw [h0]
    decide

/-- Claim C4: when the selected price type is free, `validateStep(3)` sets the
Draft's price to 0 whatever the price field holds, makes no `showFieldError`
call on the price field, and returns true if and only if the location is
non-empty after trimming. -/
theorem C4_validateStep3_free (dom : Dom) (fd : Draft)
    (hfree : selectedPriceType dom = "free") :
    (validateStep 3 dom fd).formData.price = some 0 ∧
    (∀ message, UiCall.showFieldError "price" message ∉ (validateStep 3 dom fd).calls) ∧
    ((validateStep 3 dom fd).isValid = true ↔ trim dom.location ≠ "") := by
  rw [validateStep_three, validateStep3_formData, validateStep3_isValid, validateStep3_calls]
  refine ⟨by simp [hfree], ?_, by simp [hfree, truthy_iff]⟩
  intro message
  by_cases hl : trim dom.location = "" <;> simp [hfree, hl]

/-- Witness for C4: the example page with the free price type selected and
the text "12" left in the price field. -/
theorem C4_validateStep3_free_witness :
    selectedPriceType freeDom = "free" ∧
    ((validateStep 3 freeDom pricedFormData).formData.price = some 0 ∧
      (∀ message, UiCall.showFieldError "price" message ∉
        (validateStep 3 freeDom pricedFormData).calls) ∧
      ((validateStep 3 freeDom pricedFormData).isValid = true ↔
        trim freeDom.location ≠ "")) :=
  ⟨by decide, C4_validateStep3_free freeDom pricedFormData (by decide)⟩

/-- Claim C7: when the selected price type is not free, after `validateStep(3)`
the Draft's price is the numeric value of the price field, whether the call
returned true or false; on a Draft holding the valid price 5, the invalid
price text "0" makes the call return false and replaces the stored 5 by 0. -/
theorem C7_validateStep3_price_overwritten :
    (∀ (dom : Dom) (fd : Draft), selectedPriceType dom ≠ "free" →
      (validateStep 3 dom fd).formData.price = some (stringToNumber dom.price)) ∧
    (pricedFormData.price = some (JSNumber.finite false 5 0) ∧
      (validateStep 3 { bikeDom with price := "0" } pricedFormData).isValid = false ∧
      (validateStep 3 { bikeDom with price := "0" } pricedFormData).formData.price
        = some (JSNumber.finite false 0 0)) := by
  have h0 : stringToNumber "0" = JSNumber.finite false 0 0 := by decide
  refine ⟨?_, rfl, ?_, ?_⟩
  · intro dom fd hne
    rw [validateStep_three, validateStep3_formData]
    simp [hne]
  · rw [validateStep_three, validateStep3_isValid]
    dsimp only
    rw [h0]
    decide
  · rw [validateStep_three, validateStep3_formData]
    dsimp only
    rw [h0]
    decide

/-- Witness for C7: the example page (fixed price type) with the price text
"0", on the Draft holding the price 5. -/
theorem C7_validateStep3_price_overwritten_witness :
    selectedPriceType { bikeDom with price := "0" } ≠ "free" ∧
    (validateStep 3 { bikeDom with price := "0" } pricedFormData).formData.price
      = some (stringToNumber "0") :=
  ⟨by decide,
    C7_validateStep3_price_overwritten.1 { bikeDom with price := "0" } pricedFormData
      (by decide)⟩

/-- Claim C10: after `validateStep(3)` the Draft's delivery is the list of the
values of the checked delivery checkboxes, in document order, whatever it held
before; it is empty exactly when no checkbox is checked; the returned boolean
does not depend on the checkboxes, and on the example page with every
checkbox unchecked the call returns true with an empty delivery. -/
theorem C10_validateStep3_delivery :
    (∀ (dom : Dom) (fd : Draft),
      (validateStep 3 dom fd).formData.delivery =
        (dom.deliveryBoxes.filter fun c => c.checked).map fun c => c.value) ∧
    (∀ (dom : Dom) (fd : Draft),
      (validateStep 3 dom fd).formData.delivery = [] ↔
        ∀ c ∈ dom.deliveryBoxes, c.checked = false) ∧
    (∀ (dom : Dom) (fd : Draft) (boxes : List Checkable),
      (validateStep 3 { dom with deliveryBoxes := boxes } fd).isValid =
        (validateStep 3 dom fd).isValid) ∧
    ((validateStep 3
        { bikeDom with deliveryBoxes := [⟨"pickup", false⟩, ⟨"shipping", false⟩] }
        initialFormData).isValid = true ∧
      (validateStep 3
        { bikeDom with deliveryBoxes := [⟨"pickup", false⟩, ⟨"shipping", false⟩] }
        initialFormData).formData.delivery = []) := by
  have h120 : stringToNumber "120" = JSNumber.finite false 15 3 := by decide
  refine ⟨?_, ?_, ?_, ?_, ?_⟩
  · intro dom fd
    rw [validateStep_three, validateStep3_formData]
    rfl
  · intro dom fd
    rw [validateStep_three, validateStep3_formData]
    simp [checkedDelivery, List.filter_eq_nil_iff]
  · intro dom fd boxes
    rw [validateStep_three, validateStep_three, validateStep3_isValid, validateStep3_isValid]
    rfl
  · rw [validateStep_three, validateStep3_isValid]
    dsimp only
    rw [show bikeDom.price = "120" from rfl, h120]
    decide
  · rw [validateStep_three, validateStep3_formData]
    rfl

/-! ## The price of a free listing -/

theorem saveDraft_formData (now : Nat) (savedAt : String) (accepted : Bool) (w : Wizard) :
    (saveDraft now savedAt accepted w).formData = collectFormData w.dom w.formData := by
  cases accepted <;> rfl

theorem publishListing_formData (w : Wizard) :
    (publishListing w).formData = collectFormData w.dom w.formData := by
  simp [publishListing, Wizard.runValidateStep, validateStep_four, Validation.start,
    Wizard.runCollectFormData]

theorem runValidateStep_three_formData (w : Wizard) :
    (w.runValidateStep 3).2.formData = (validateStep3 w.dom w.formData).formData := by
  simp [Wizard.runValidateStep, validateStep_three]

theorem runValidateStep_dom (step : JSNumber) (w : Wizard) :
    (w.runValidateStep step).2.dom = w.dom := rfl

/-- Claim C5 (the code at the failing input): with the free price type
selected, `saveDraft` (through `collectFormData`) leaves the Draft with
priceType free and a price that is not 0: `null` when the price field is
empty, 12 when the text "12" is left in it; so does `publishListing`; whereas
`validateStep(3)` on the same page stores the price 0. -/
theorem C5_collect_ignores_free :
    (runDraftActions (initialWizard { freeDom with price := "" } [])
        [.save 1700000000000 "2023-11-14T22:13:20.000Z" true]).formData.priceType = "free" ∧
    (runDraftActions (initialWizard { freeDom with price := "" } [])
        [.save 1700000000000 "2023-11-14T22:13:20.000Z" true]).formData.price = none ∧
    (runDraftActions (initialWizard freeDom [])
        [.save 1700000000000 "2023-11-14T22:13:20.000Z" true]).formData.priceType = "free" ∧
    (runDraftActions (initialWizard freeDom [])
        [.save 1700000000000 "2023-11-14T22:13:20.000Z" true]).formData.price
      = some (JSNumber.finite false 3 2) ∧
    (runDraftActions (initialWizard freeDom []) [.validate 3, .publish]).formData.priceType
      = "free" ∧
    (runDraftActions (initialWizard freeDom []) [.validate 3, .publish]).formData.price
      = some (JSNumber.finite false 3 2) ∧
    (runDraftActions (initialWizard freeDom []) [.validate 3]).formData.price
      = some (JSNumber.finite false 0 0) := by
  have h12 : numberOrNull (stringToNumber "12") = some (JSNumber.finite false 3 2) := by
    decide
  have he : numberOrNull (stringToNumber "") = none := by decide
  have hsel : selectedPriceType freeDom = "free" := by decide
  simp only [runDraftActions, List.foldl, DraftAction.run, saveDraft_formData,
    publishListing_formData, runValidateStep_dom, runValidateStep_three_formData,
    validateStep3_formData]
  refine ⟨hsel, he, hsel, h12, hsel, h12, ?_⟩
  simp only [hsel, ne_eq, not_true_eq_false, if_false, number_zero]
  trivial

/-! ## Tags -/

/-- The tag list after `addTag`. -/
theorem addTag_tags (tag : String) (w : Wizard) :
    (addTag tag w).formData.tags =
      if tag = "" ∨ tag ∈ w.formData.tags ∨ 10 ≤ w.formData.tags.length then w.formData.tags
      else w.formData.tags ++ [tag] := by
  unfold addTag
  by_cases h1 : tag = ""
  · simp [h1, truthy]
  · by_cases h2 : tag ∈ w.formData.tags
    · simp [h2]
    · by_cases h3 : 10 ≤ w.formData.tags.length
      · simp [h3]
      · simp [h1, h2, h3, truthy]

/-- Claim C11: `addTag(candidate)` leaves the tag list unchanged if the
candidate is empty, is already present (exact match) or the list already holds
10 entries (or more); otherwise the new list is the old list with the
candidate appended at the end. -/
theorem C11_addTag (tag : String) (w : Wizard) :
    ((tag = "" ∨ tag ∈ w.formData.tags ∨ 10 ≤ w.formData.tags.length) ∧
        (addTag tag w).formData.tags = w.formData.tags) ∨
    (¬ (tag = "" ∨ tag ∈ w.formData.tags ∨ 10 ≤ w.formData.tags.length) ∧
        (addTag tag w).formData.tags = w.formData.tags ++ [tag]) := by
  rw [addTag_tags]
  by_cases h : tag = "" ∨ tag ∈ w.formData.tags ∨ 10 ≤ w.formData.tags.length
  · exact Or.inl ⟨h, if_pos h⟩
  · exact Or.inr ⟨h, if_neg h⟩

/-- One tag operation keeps the tag list within 10 entries and free of
duplicates. -/
theorem tags_invariant_step (w : Wizard) (act : TagAction)
    (h : w.formData.tags.length ≤ 10 ∧ w.formData.tags.Nodup) :
    (act.run w).formData.tags.length ≤ 10 ∧ (act.run w).formData.tags.Nodup := by
  cases act with
  | add tag =>
    simp only [TagAction.run, addTag_tags]
    split
    · exact h
    · next hc =>
      simp only [not_or, not_le] at hc
      refine ⟨by simp; omega, ?_⟩
      exact List.Nodup.append h.2 (List.nodup_singleton _) (by simpa using hc.2.1)
  | remove tag =>
    simp only [TagAction.run, removeTag]
    exact ⟨le_trans (List.length_filter_le _ _) h.1, h.2.filter _⟩

/-- Claim C12: in every state reached from the initial (empty) tag list by any
sequence of `addTag` and `removeTag` calls, the tag list has at most 10
entries and no duplicate entry. -/
theorem C12_tags_invariant (dom : Dom) (drafts : List SavedDraft) (acts : List TagAction) :
    (runTagActions (initialWizard dom drafts) acts).formData.tags.length ≤ 10 ∧
    (runTagActions (initialWizard dom drafts) acts).formData.tags.Nodup := by
  have key : ∀ (acts : List TagAction) (w : Wizard),
      (w.formData.tags.length ≤ 10 ∧ w.formData.tags.Nodup) →
      ((runTagActions w acts).formData.tags.length ≤ 10 ∧
        (runTagActions w acts).formData.tags.Nodup) := by
    intro acts
    induction acts with
    | nil => exact fun w h => h
    | cons act rest ih => exact fun w h => ih (act.run w) (tags_invariant_step w act h)
  exact key acts _ ⟨Nat.zero_le _, List.nodup_nil⟩

/-! ## Removing photos -/

theorem filterBoolean_arrayDelete {α : Type} (a : List (Option α)) (i : Nat) :
    filterBoolean (arrayDelete a i) = (a.eraseIdx i).filter Option.isSome := by
  unfold filterBoolean arrayDelete
  induction a generalizing i with
  | nil => simp
  | cons x rest ih =>
    cases i with
    | zero => simp
    | succ j =>
      simp only [List.set_cons_succ, List.eraseIdx_cons_succ, List.filter_cons]
      rw [ih j]

theorem filter_isSome_eq {α : Type} (a : List (Option α)) :
    a.filter Option.isSome = (a.filterMap id).map some := by
  induction a with
  | nil => rfl
  | cons x rest ih =>
    cases x with
    | none => simpa using ih
    | some v => simpa using ih

theorem removePhoto_photos (w : Wizard) (i : Nat) (hslot : i < w.dom.photoSlots.length) :
    (removePhoto i w).formData.photos = (w.formData.photos.eraseIdx i).filter Option.isSome := by
  simp [removePhoto, hslot, filterBoolean_arrayDelete]

theorem filter_isSome_of_dense {α : Type} (a : List (Option α))
    (h : ∀ x ∈ a, x.isSome = true) : a.filter Option.isSome = a :=
  List.filter_eq_self.2 h

/-- Claim C13, as stated, fails: on the initial (empty) photo sequence
`removePhoto(0)` leaves the count at 0, and after a first upload into slot 3
(count 4, three holes) `removePhoto(3)` takes the count to 0. -/
theorem C13_counterexample :
    ¬ ((removePhoto 0 (initialWizard bikeDom [])).formData.photos.length + 1 =
        (initialWizard bikeDom []).formData.photos.length) ∧
    (runPhotoActions (initialWizard bikeDom [])
        [.upload (some (imageFile "a.png")) 3 "data:a"]).formData.photos.length = 4 ∧
    (removePhoto 3 (runPhotoActions (initialWizard bikeDom [])
        [.upload (some (imageFile "a.png")) 3 "data:a"])).formData.photos.length = 0 := by
  refine ⟨?_, ?_, ?_⟩ <;> decide

/-- Claim C13 (amended): for every photo sequence and every slot index `i` of
the page, the photo count after `removePhoto(i)` is the number of photos held
at indices other than `i` before the call; when the sequence is dense (no
empty slot) and `i` lies below the count, the count decreases by exactly 1. -/
theorem C13_removePhoto_count (w : Wizard) (i : Nat)
    (hslot : i < w.dom.photoSlots.length) :
    (removePhoto i w).formData.photos.length =
      ((w.formData.photos.eraseIdx i).filter Option.isSome).length ∧
    ((∀ x ∈ w.formData.photos, x.isSome = true) → i < w.formData.photos.length →
      (removePhoto i w).formData.photos.length + 1 = w.formData.photos.length) := by
  rw [removePhoto_photos w i hslot]
  refine ⟨rfl, ?_⟩
  intro hdense hi
  rw [filter_isSome_of_dense _ (fun x hx => hdense x (List.mem_of_mem_eraseIdx hx)),
    List.length_eraseIdx, if_pos hi]
  omega

/-- Claim C14: for every photo sequence and every slot index `i` of the page,
after `removePhoto(i)` the photo sequence consists of exactly the photos that
were held at indices other than `i`, in their original order, and it is dense
(no empty slot is left). -/
theorem C14_removePhoto_compacts (w : Wizard) (i : Nat)
    (hslot : i < w.dom.photoSlots.length) :
    (removePhoto i w).formData.photos =
      ((w.formData.photos.eraseIdx i).filterMap id).map some ∧
    (∀ x ∈ (removePhoto i w).formData.photos, x ≠ none) := by
  rw [removePhoto_photos w i hslot, filter_isSome_eq]
  refine ⟨rfl, ?_⟩
  intro x hx
  obtain ⟨p, -, rfl⟩ := List.mem_map.1 hx
  exact Option.some_ne_none p

/-- Witness for C14: uploads into slots 0, 1 and 2 of the example page, then
`removePhoto(1)`. -/
theorem C14_removePhoto_compacts_witness :
    1 < threePhotos.dom.photoSlots.length ∧
    ((removePhoto 1 threePhotos).formData.photos =
      ((threePhotos.formData.photos.eraseIdx 1).filterMap id).map some ∧
    (∀ x ∈ (removePhoto 1 threePhotos).formData.photos, x ≠ none)) :=
  ⟨by decide, C14_removePhoto_compacts _ 1 (by decide)⟩

/-- Witness for C13: on the example page, `removePhoto(3)` after a first upload
into slot 3 (three holes and one photo: no photo is held at another index, the
count falls from 4 to 0), and `removePhoto(0)` after uploads into slots 0 and
1 (a dense sequence of two photos: the count falls by 1). -/
theorem C13_removePhoto_count_witness :
    (3 < (runPhotoActions (initialWizard bikeDom [])
        [.upload (some (imageFile "a.png")) 3 "data:a"]).dom.photoSlots.length ∧
      (removePhoto 3 (runPhotoActions (initialWizard bikeDom [])
        [.upload (some (imageFile "a.png")) 3 "data:a"])).formData.photos.length =
        (((runPhotoActions (initialWizard bikeDom [])
          [.upload (some (imageFile "a.png")) 3 "data:a"]).formData.photos.eraseIdx 3).filter
            Option.isSome).length ∧
      (((runPhotoActions (initialWizard bikeDom [])
          [.upload (some (imageFile "a.png")) 3 "data:a"]).formData.photos.eraseIdx 3).filter
            Option.isSome).length = 0) ∧
    (0 < twoPhotos.dom.photoSlots.length ∧
      (∀ x ∈ twoPhotos.formData.photos, x.isSome = true) ∧
      0 < twoPhotos.formData.photos.length ∧
      (removePhoto 0 twoPhotos).formData.photos.length =
        ((twoPhotos.formData.photos.eraseIdx 0).filter Option.isSome).length ∧
      (removePhoto 0 twoPhotos).formData.photos.length + 1 =
        twoPhotos.formData.photos.length) :=
  ⟨⟨by decide, (C13_removePhoto_count _ 3 (by decide)).1, by decide⟩,
    by decide, by decide, by decide, (C13_removePhoto_count _ 0 (by decide)).1,
    (C13_removePhoto_count _ 0 (by decide)).2 (by decide) (by decide)⟩

/-- Claim C15: slot indices become stale after compaction.  On the example
page, after uploads a, b, c into slots 0, 1, 2 and `removePhoto(0)`, the call
`removePhoto(1)` made with the slot of b removes c: the Draft holds b while
the only visible preview is that of c.  After uploads a, b into slots 0, 1 and
`removePhoto(0)`, the call `removePhoto(1)` removes nothing: the Draft still
holds b and no preview is visible; and an upload of d into slot 0 overwrites
b: the Draft holds d alone while slots 0 and 1 show d and b. -/
theorem C15_stale_slot_indices :
    (heldDataUrls (runPhotoActions threePhotos [.remove 0]) = ["data:b", "data:c"] ∧
      heldDataUrls (runPhotoActions threePhotos [.remove 0, .remove 1]) = ["data:b"] ∧
      shownPreviews (runPhotoActions threePhotos [.remove 0, .remove 1]) = ["data:c"]) ∧
    (heldDataUrls (runPhotoActions twoPhotos [.remove 0, .remove 1]) = ["data:b"] ∧
      shownPreviews (runPhotoActions twoPhotos [.remove 0, .remove 1]) = []) ∧
    (heldDataUrls (runPhotoActions twoPhotos
        [.remove 0, .upload (some (imageFile "d.png")) 0 "data:d"]) = ["data:d"] ∧
      shownPreviews (runPhotoActions twoPhotos
        [.remove 0, .upload (some (imageFile "d.png")) 0 "data:d"]) = ["data:d", "data:b"]) := by
  refine ⟨⟨?_, ?_, ?_⟩, ⟨?_, ?_⟩, ⟨?_, ?_⟩⟩ <;> decide

theorem arraySet_length {α : Type} (a : List (Option α)) (i : Nat) (v : α) :
    (arraySet a i v).length = max a.length (i + 1) := by
  unfold arraySet
  split
  · next h => simp; omega
  · next h => simp; omega

/-- One photo operation made with a slot index below 8 keeps the photos array
within 8 entries. -/
theorem photos_length_step (w : Wizard) (act : PhotoAction) (hidx : act.index < 8)
    (h : w.formData.photos.length ≤ 8) : (act.run w).formData.photos.length ≤ 8 := by
  cases act with
  | upload file index dataUrl =>
    cases file with
    | none => exact h
    | some f =>
      simp only [PhotoAction.run, handlePhotoUpload]
      split
      · exact h
      · split
        · exact h
        · split
          · simp only [arraySet_length]
            simp only [PhotoAction.index] at hidx
            omega
          · exact h
  | remove index =>
    simp only [PhotoAction.run, removePhoto]
    split
    · exact le_trans (List.length_filter_le _ _) (by simpa [arrayDelete] using h)
    · exact h

/-- Claim C16: in every state reached from the initial state by photo uploads
and `removePhoto` calls made with slot indices 0..7, the Draft's photo
sequence has length at most 8. -/
theorem C16_photos_at_most_eight (dom : Dom) (drafts : List SavedDraft)
    (acts : List PhotoAction) (hidx : ∀ a ∈ acts, a.index < 8) :
    (runPhotoActions (initialWizard dom drafts) acts).formData.photos.length ≤ 8 := by
  have key : ∀ (acts : List PhotoAction) (w : Wizard), (∀ a ∈ acts, a.index < 8) →
      w.formData.photos.length ≤ 8 → (runPhotoActions w acts).formData.photos.length ≤ 8 := by
    intro acts
    induction acts with
    | nil => exact fun w _ h => h
    | cons act rest ih =>
      intro w hall h
      exact ih (act.run w) (fun a ha => hall a (List.mem_cons_of_mem _ ha))
        (photos_length_step w act (hall act (List.mem_cons_self _ _)) h)
  exact key acts _ hidx (Nat.zero_le _)

/-- Witness for C16: an upload into the last slot (index 7) of the example
page, an upload into slot 0 and a removal. -/
theorem C16_photos_at_most_eight_witness :
    (∀ a ∈ [PhotoAction.upload (some (imageFile "a.png")) 7 "data:a",
        PhotoAction.upload (some (imageFile "b.png")) 0 "data:b", PhotoAction.remove 3],
      a.index < 8) ∧
    (runPhotoActions (initialWizard bikeDom [])
      [PhotoAction.upload (some (imageFile "a.png")) 7 "data:a",
        PhotoAction.upload (some (imageFile "b.png")) 0 "data:b",
        PhotoAction.remove 3]).formData.photos.length ≤ 8 :=
  ⟨by decide, C16_photos_at_most_eight bikeDom [] _ (by decide)⟩

/-! ## Navigation -/

/-- Claim C17: for every target value and every wizard state, `goToStep(target)`
sets `currentStep` to the target and leaves the Draft unchanged (as well as the
page controls, the persisted drafts and the collaborator calls); it is a total
function, so it always completes; a target outside 1..4 such as 7 or NaN is
stored like any other. -/
theorem C17_goToStep (target : JSNumber) (w : Wizard) :
    (goToStep target w).currentStep = target ∧
    (goToStep target w).formData = w.formData ∧
    (goToStep target w).dom = w.dom ∧
    (goToStep target w).drafts = w.drafts ∧
    (goToStep target w).calls = w.calls ∧
    (goToStep 7 w).currentStep = 7 ∧
    (goToStep JSNumber.nan w).currentStep = JSNumber.nan :=
  ⟨rfl, rfl, rfl, rfl, rfl, rfl, rfl⟩

/-- Claim C18: after Next, `currentStep` is the button's target if
`validateStep(currentStep)` returned true and is unchanged if it returned
false; Prev sets `currentStep` to its target and runs no validation (the Draft
and the collaborator calls are untouched).  On the example page, Next from the
initial step 1 (no photo yet) stays on step 1, and after an upload it moves to
step 2. -/
theorem C18_next_guarded_prev_free :
    (∀ (next : Option String) (w : Wizard),
      (clickNext next w).currentStep =
        if (validateStep w.currentStep w.dom w.formData).isValid = true
        then datasetNumber next else w.currentStep) ∧
    (∀ (prev : Option String) (w : Wizard),
      (clickPrev prev w).currentStep = datasetNumber prev ∧
      (clickPrev prev w).formData = w.formData ∧
      (clickPrev prev w).calls = w.calls) ∧
    ((clickNext (some "2") (initialWizard bikeDom [])).currentStep = 1 ∧
      (clickNext (some "2") twoPhotos).currentStep = 2) := by
  refine ⟨?_, fun prev w => ⟨rfl, rfl, rfl⟩, ?_, ?_⟩
  · intro next w
    unfold clickNext
    simp only [Wizard.runValidateStep]
    split <;> rfl
  · have h : (validateStep 1 bikeDom initialFormData).isValid = false := by
      rw [validateStep_one]; decide
    unfold clickNext
    simp only [Wizard.runValidateStep, initialWizard, h]
    rfl
  · have h2 : stringToNumber "2" = 2 := by decide
    have h : (validateStep 1 twoPhotos.dom twoPhotos.formData).isValid = true := by
      rw [validateStep_one]; decide
    have hc : twoPhotos.currentStep = 1 := by decide
    unfold clickNext
    simp only [Wizard.runValidateStep, hc, h, datasetNumber, h2]
    rfl

/-! ## Saving drafts -/

/-- The effect of one `saveDraft()` call. -/
theorem saveDraft_eq (now : Nat) (savedAt : String) (accepted : Bool) (w : Wizard) :
    saveDraft now savedAt accepted w =
      if accepted = true then
        { w with
          formData := collectFormData w.dom w.formData
          drafts := w.drafts ++
            [{ id := now, data := jsonImage (collectFormData w.dom w.formData),
               savedAt := savedAt }]
          calls := w.calls ++ [UiCall.showAlert "Draft saved successfully!" "success"] }
      else { w with formData := collectFormData w.dom w.formData } := by
  cases accepted <;> rfl

/-- Claim C19, as stated, fails: two `saveDraft()` calls that read the same
`Date.now()` value (calls within one millisecond) append two entries with the
same id; and when the storage refuses the writes, as it does for the Draft
holding a 4 MiB photo, two calls do not grow the persisted list at all. -/
theorem C19_counterexample :
    (¬ (∃ e1 e2,
        (saveDraft 1700000000000 "2023-11-14T22:13:20.000Z" true
          (saveDraft 1700000000000 "2023-11-14T22:13:20.000Z" true
            (initialWizard bikeDom []))).drafts = [e1, e2] ∧ e1.id < e2.id) ∧
      ¬ (∃ e1 e2,
        (saveDraft 1700000000000 "2023-11-14T22:13:20.000Z" true
          (saveDraft 1700000000000 "2023-11-14T22:13:20.000Z" true
            (initialWizard bikeDom []))).drafts = [e1, e2] ∧ e1.id ≠ e2.id)) ∧
    (bigPhoto.drafts = [] ∧
      (saveDraft 1700000000001 "2023-11-14T22:13:20.001Z" false
        (saveDraft 1700000000000 "2023-11-14T22:13:20.000Z" false bigPhoto)).drafts = []) := by
  refine ⟨⟨?_, ?_⟩, rfl, ?_⟩
  · rintro ⟨e1, e2, h, hlt⟩
    simp only [saveDraft_eq, if_true, initialWizard, List.nil_append,
      List.singleton_append, List.cons.injEq, and_true] at h
    obtain ⟨rfl, rfl⟩ := h
    exact absurd hlt (lt_irrefl _)
  · rintro ⟨e1, e2, h, hne⟩
    simp only [saveDraft_eq, if_true, initialWizard, List.nil_append,
      List.singleton_append, List.cons.injEq, and_true] at h
    obtain ⟨rfl, rfl⟩ := h
    exact hne rfl
  · simp only [saveDraft_eq, Bool.false_eq_true, if_false]
    rfl

/-- Claim C19 (amended): after two `saveDraft()` calls in succession the
persisted draft list is the old list followed by one entry for each call whose
write the storage accepted, in call order; so two accepted calls grow it by
exactly 2 entries, whose ids are the values `Date.now()` had at the first and
at the second call: the ids are distinct exactly when those values differ, and
the second is greater than the first exactly when the clock has advanced
between the calls. -/
theorem C19_saveDraft_twice (w : Wizard) (now1 now2 : Nat) (savedAt1 savedAt2 : String)
    (accepted1 accepted2 : Bool) :
    (saveDraft now2 savedAt2 accepted2 (saveDraft now1 savedAt1 accepted1 w)).drafts =
      w.drafts
      ++ (if accepted1 = true then
          [{ id := now1, data := jsonImage (collectFormData w.dom w.formData),
             savedAt := savedAt1 }] else [])
      ++ (if accepted2 = true then
          [{ id := now2,
             data := jsonImage (collectFormData w.dom (collectFormData w.dom w.formData)),
             savedAt := savedAt2 }] else []) ∧
    (saveDraft now2 savedAt2 true (saveDraft now1 savedAt1 true w)).drafts.length
      = w.drafts.length + 2 ∧
    (∃ e1 e2,
      (saveDraft now2 savedAt2 true (saveDraft now1 savedAt1 true w)).drafts
        = w.drafts ++ [e1, e2] ∧
      e1.id = now1 ∧ e2.id = now2 ∧
      (e1.id ≠ e2.id ↔ now1 ≠ now2) ∧ (e1.id < e2.id ↔ now1 < now2)) := by
  refine ⟨?_, ?_, ?_⟩
  · cases accepted1 <;> cases accepted2 <;> simp [saveDraft_eq]
  · simp [saveDraft_eq]
  · refine ⟨⟨now1, jsonImage (collectFormData w.dom w.formData), savedAt1⟩,
      ⟨now2, jsonImage (collectFormData w.dom (collectFormData w.dom w.formData)), savedAt2⟩,
      ?_, rfl, rfl, Iff.rfl, Iff.rfl⟩
    simp [saveDraft_eq]

/-- Claim C20, as stated, fails: on the example page holding a 4 MiB photo,
with the storage refusing the write, `saveDraft` leaves the persisted list as
it was (empty), with no new entry and no alert; and the entry of an accepted
write does not hold the fields of the collected Draft unchanged: with the text
"Infinity" in the price field the collected price is infinite and the stored
price is `null`, and a stored photo keeps only its data URL. -/
theorem C20_counterexample :
    (¬ (∃ e, (saveDraft 1700000000000 "2023-11-14T22:13:20.000Z" false bigPhoto).drafts
        = bigPhoto.drafts ++ [e]) ∧
      (saveDraft 1700000000000 "2023-11-14T22:13:20.000Z" false bigPhoto).calls
        = bigPhoto.calls) ∧
    ((collectFormData { bikeDom with price := "Infinity" } initialFormData).price
        = some (JSNumber.inf false) ∧
      (saveDraft 1700000000000 "2023-11-14T22:13:20.000Z" true
        (initialWizard { bikeDom with price := "Infinity" } [])).drafts.map
          (fun e => e.data.price) = [none]) ∧
    (saveDraft 1700000000000 "2023-11-14T22:13:20.000Z" true twoPhotos).drafts.map
        (fun e => e.data.photos) =
      [[some { dataUrl := "data:a" }, some { dataUrl := "data:b" }]] := by
  have hinf : stringToNumber "Infinity" = JSNumber.inf false := by decide
  have hc : (collectFormData { bikeDom with price := "Infinity" } initialFormData).price
      = some (JSNumber.inf false) := by
    show numberOrNull (stringToNumber "Infinity") = _
    rw [hinf]
    rfl
  refine ⟨⟨?_, ?_⟩, ⟨hc, ?_⟩, ?_⟩
  · rintro ⟨e, h⟩
    simp only [saveDraft_eq, Bool.false_eq_true, if_false] at h
    have hl := congrArg List.length h
    simp [bigPhoto, handlePhotoUpload, initialWizard] at hl
  · simp only [saveDraft_eq, Bool.false_eq_true, if_false]
  · simp only [saveDraft_eq, if_true, initialWizard, List.nil_append, List.map_cons,
      List.map_nil, jsonImage, hc]
    rfl
  · simp only [saveDraft_eq, if_true]
    decide

/-- Claim C20 (amended): `saveDraft` performs no validation and is append-only:
for every page content, Draft and persisted list, the Draft is collected, no
field error is signalled and `currentStep` is unchanged; when the storage
accepts the write, the persisted list is the old list followed by one entry,
the JSON image of the collected Draft (texts, tags and delivery as collected,
photos reduced to their data URLs, holes and a non-finite price stored as
`null`) with the id and time stamp of the call, and the success alert is
shown; when the storage refuses the write, the persisted list is unchanged and
nothing is shown. -/
theorem C20_saveDraft_appends (w : Wizard) (now : Nat) (savedAt : String) (accepted : Bool) :
    (saveDraft now savedAt accepted w).formData = collectFormData w.dom w.formData ∧
    (saveDraft now savedAt accepted w).currentStep = w.currentStep ∧
    (∀ fieldId message,
      UiCall.showFieldError fieldId message ∈ (saveDraft now savedAt accepted w).calls →
        UiCall.showFieldError fieldId message ∈ w.calls) ∧
    (saveDraft now savedAt accepted w).drafts =
      (if accepted = true then
        w.drafts ++
          [{ id := now, data := jsonImage (collectFormData w.dom w.formData),
             savedAt := savedAt }]
      else w.drafts) ∧
    (saveDraft now savedAt accepted w).calls =
      (if accepted = true then
        w.calls ++ [UiCall.showAlert "Draft saved successfully!" "success"]
      else w.calls) ∧
    ((jsonImage (collectFormData w.dom w.formData)).title
        = (collectFormData w.dom w.formData).title ∧
      (jsonImage (collectFormData w.dom w.formData)).category
        = (collectFormData w.dom w.formData).category ∧
      (jsonImage (collectFormData w.dom w.formData)).condition
        = (collectFormData w.dom w.formData).condition ∧
      (jsonImage (collectFormData w.dom w.formData)).brand
        = (collectFormData w.dom w.formData).brand ∧
      (jsonImage (collectFormData w.dom w.formData)).model
        = (collectFormData w.dom w.formData).model ∧
      (jsonImage (collectFormData w.dom w.formData)).description
        = (collectFormData w.dom w.formData).description ∧
      (jsonImage (collectFormData w.dom w.formData)).tags = w.formData.tags ∧
      (jsonImage (collectFormData w.dom w.formData)).priceType
        = (collectFormData w.dom w.formData).priceType ∧
      (jsonImage (collectFormData w.dom w.formData)).location
        = (collectFormData w.dom w.formData).location ∧
      (jsonImage (collectFormData w.dom w.formData)).delivery
        = (collectFormData w.dom w.formData).delivery ∧
      (jsonImage (collectFormData w.dom w.formData)).photos =
        w.formData.photos.map (fun p => p.map fun q => { dataUrl := q.dataUrl }) ∧
      (jsonImage (collectFormData w.dom w.formData)).price =
        (collectFormData w.dom w.formData).price.bind jsonNumber) := by
  refine ⟨saveDraft_formData _ _ _ _, ?_, ?_, ?_, ?_,
    rfl, rfl, rfl, rfl, rfl, rfl, rfl, rfl, rfl, rfl, rfl, rfl⟩
  · cases accepted <;> rfl
  · intro fieldId message
    cases accepted
    · exact fun h => h
    · intro h
      simp only [saveDraft_eq, if_true, List.mem_append, List.mem_singleton] at h
      rcases h with h | h
      · exact h
      · exact UiCall.noConfusion h
  · cases accepted <;> rfl
  · cases accepted <;> rfl

/-! ## Collecting the form against validating it -/

theorem orElse_empty (s : String) : orElse s "" = s := by
  unfold orElse
  split
  · rfl
  · next h =>
    have : truthy s = false := by simpa using h
    exact ((truthy_eq_false_iff s).1 this).symm

/-- The Draft after `validateStep(2)` then `validateStep(3)`. -/
theorem validate_two_three_formData (dom : Dom) (fd : Draft) :
    (validateStep 3 dom (validateStep 2 dom fd).formData).formData =
      { fd with
        title := trim dom.title, category := dom.category, condition := dom.condition,
        description := trim dom.description, brand := trim dom.brand,
        model := trim dom.model,
        priceType := selectedPriceType dom
        price := if selectedPriceType dom ≠ "free" then some (stringToNumber dom.price)
          else some 0
        location := trim dom.location
        delivery := checkedDelivery dom } := by
  rw [validateStep_three, validateStep_two, validateStep3_formData, validateStep2_formData]

/-- Claim C21, as stated, fails on the price: with the fixed price type and
the price text "0", `collectFormData` stores `null` where `validateStep(3)`
stores 0. -/
theorem C21_counterexample :
    (collectFormData { bikeDom with price := "0" } initialFormData).price = none ∧
    (validateStep 3 { bikeDom with price := "0" }
      (validateStep 2 { bikeDom with price := "0" } initialFormData).formData).formData.price
      = some (JSNumber.finite false 0 0) ∧
    (collectFormData { bikeDom with price := "0" } initialFormData).price ≠
      (validateStep 3 { bikeDom with price := "0" }
        (validateStep 2 { bikeDom with price := "0" }
          initialFormData).formData).formData.price := by
  have h0 : stringToNumber "0" = JSNumber.finite false 0 0 := by decide
  have hc : (collectFormData { bikeDom with price := "0" } initialFormData).price = none := by
    show numberOrNull (stringToNumber "0") = none
    rw [h0]
    rfl
  have hv : (validateStep 3 { bikeDom with price := "0" }
      (validateStep 2 { bikeDom with price := "0" } initialFormData).formData).formData.price
      = some (JSNumber.finite false 0 0) := by
    rw [validate_two_three_formData]
    dsimp only
    rw [if_pos (by decide), h0]
  refine ⟨hc, hv, ?_⟩
  rw [hc, hv]
  exact fun h => Option.noConfusion h

/-- Claim C21 (amended): for every form content and prior Draft, the Draft
after `collectFormData` equals the Draft after `validateStep(2)` then
`validateStep(3)` on title, category, condition, brand, model, description,
priceType, location and delivery; it equals it on price as well when the
price type is not free and the number in the price field is neither zero nor
NaN. -/
theorem C21_collect_vs_validate :
    (∀ (dom : Dom) (fd : Draft),
      (collectFormData dom fd).title =
        (validateStep 3 dom (validateStep 2 dom fd).formData).formData.title ∧
      (collectFormData dom fd).category =
        (validateStep 3 dom (validateStep 2 dom fd).formData).formData.category ∧
      (collectFormData dom fd).condition =
        (validateStep 3 dom (validateStep 2 dom fd).formData).formData.condition ∧
      (collectFormData dom fd).brand =
        (validateStep 3 dom (validateStep 2 dom fd).formData).formData.brand ∧
      (collectFormData dom fd).model =
        (validateStep 3 dom (validateStep 2 dom fd).formData).formData.model ∧
      (collectFormData dom fd).description =
        (validateStep 3 dom (validateStep 2 dom fd).formData).formData.description ∧
      (collectFormData dom fd).priceType =
        (validateStep 3 dom (validateStep 2 dom fd).formData).formData.priceType ∧
      (collectFormData dom fd).location =
        (validateStep 3 dom (validateStep 2 dom fd).formData).formData.location ∧
      (collectFormData dom fd).delivery =
        (validateStep 3 dom (validateStep 2 dom fd).formData).formData.delivery) ∧
    (∀ (dom : Dom) (fd : Draft), selectedPriceType dom ≠ "free" →
      (stringToNumber dom.price).truthy = true →
      (collectFormData dom fd).price =
        (validateStep 3 dom (validateStep 2 dom fd).formData).formData.price) := by
  constructor
  · intro dom fd
    rw [validate_two_three_formData]
    simp [collectFormData, orElse_empty]
  · intro dom fd hne ht
    rw [validate_two_three_formData]
    simp [collectFormData, numberOrNull, hne, ht]

/-- Witness for C21: the example page (fixed price type, price text "120"). -/
theorem C21_collect_vs_validate_witness :
    (selectedPriceType bikeDom ≠ "free" ∧ (stringToNumber bikeDom.price).truthy = true) ∧
    (collectFormData bikeDom initialFormData).price =
      (validateStep 3 bikeDom (validateStep 2 bikeDom initialFormData).formData).formData.price :=
  ⟨⟨by decide, by decide⟩,
    C21_collect_vs_validate.2 bikeDom initialFormData (by decide) (by decide)⟩

/-! ## Publishing -/

/-- Claim C22: the Draft that `publishListing` arrives at for submission has
the tags and photos the Draft had before the call, and its delivery is the
list of the values of the delivery checkboxes checked at the call. -/
theorem C22_publish_frame (w : Wizard) :
    (publishListing w).formData.tags = w.formData.tags ∧
    (publishListing w).formData.photos = w.formData.photos ∧
    (publishListing w).formData.delivery =
      (w.dom.deliveryBoxes.filter fun c => c.checked).map fun c => c.value := by
  rw [publishListing_formData]
  exact ⟨rfl, rfl, rfl⟩

/-! ## Uploading photos -/

theorem arraySet_getElem?_self {α : Type} (a : List (Option α)) (i : Nat) (v : α) :
    (arraySet a i v)[i]? = some (some v) := by
  unfold arraySet
  split
  · next h => simp [h]
  · next h =>
    have hlen : (a ++ List.replicate (i - a.length) none).length = i := by
      simp; omega
    rw [List.getElem?_append_right (by omega), hlen]
    simp

theorem arraySet_getElem?_other {α : Type} (a : List (Option α)) (i j : Nat) (v : α)
    (hj : j < a.length) (hne : j ≠ i) : (arraySet a i v)[j]? = a[j]? := by
  unfold arraySet
  split
  · next h => rw [List.getElem?_set_ne (Ne.symm hne)]
  · next h =>
    rw [List.append_assoc, List.getElem?_append_left hj]

/-- Claim C23: for every file and every slot index of the page,
`handlePhotoUpload` writes the Draft's photos exactly when the file's type
starts with "image/" and its size is at most 5*1024*1024 bytes: either the
file is accepted and is stored at the given index, the entries at the other
indices staying as they were, or it is of another type or larger and the
whole Draft is left unchanged. -/
theorem C23_handlePhotoUpload (file : File) (index : Nat) (dataUrl : String) (w : Wizard)
    (hslot : index < w.dom.photoSlots.length) :
    ((startsWith file.type "image/" = true ∧ file.size ≤ 5 * 1024 * 1024) ∧
      (handlePhotoUpload (some file) index dataUrl w).formData.photos[index]? =
        some (some { file := file, dataUrl := dataUrl }) ∧
      (∀ j, j < w.formData.photos.length → j ≠ index →
        (handlePhotoUpload (some file) index dataUrl w).formData.photos[j]? =
          w.formData.photos[j]?)) ∨
    (¬ (startsWith file.type "image/" = true ∧ file.size ≤ 5 * 1024 * 1024) ∧
      (handlePhotoUpload (some file) index dataUrl w).formData = w.formData) := by
  by_cases hacc : startsWith file.type "image/" = true ∧ file.size ≤ 5 * 1024 * 1024
  · left
    obtain ⟨h1, h2⟩ := hacc
    have h2' : ¬ file.size > 5 * 1024 * 1024 := by omega
    have hp : (handlePhotoUpload (some file) index dataUrl w).formData.photos =
        arraySet w.formData.photos index { file := file, dataUrl := dataUrl } := by
      unfold handlePhotoUpload
      simp [h1, h2', hslot]
    rw [hp]
    exact ⟨⟨h1, h2⟩, arraySet_getElem?_self _ _ _,
      fun j hj hne => arraySet_getElem?_other _ _ _ _ hj hne⟩
  · right
    refine ⟨hacc, ?_⟩
    unfold handlePhotoUpload
    by_cases h1 : startsWith file.type "image/" = true
    · have h2 : file.size > 5 * 1024 * 1024 := by
        by_contra hc
        exact hacc ⟨h1, by omega⟩
      simp [h1, h2]
    · simp [h1]

/-- Witness for C23: a PNG of 2048 bytes chosen for slot 2 of the example
page. -/
theorem C23_handlePhotoUpload_witness :
    2 < (initialWizard bikeDom []).dom.photoSlots.length ∧
    (((startsWith (imageFile "a.png").type "image/" = true ∧
        (imageFile "a.png").size ≤ 5 * 1024 * 1024) ∧
      (handlePhotoUpload (some (imageFile "a.png")) 2 "data:a"
        (initialWizard bikeDom [])).formData.photos[2]? =
          some (some { file := imageFile "a.png", dataUrl := "data:a" }) ∧
      (∀ j, j < (initialWizard bikeDom []).formData.photos.length → j ≠ 2 →
        (handlePhotoUpload (some (imageFile "a.png")) 2 "data:a"
          (initialWizard bikeDom [])).formData.photos[j]? =
            (initialWizard bikeDom []).formData.photos[j]?)) ∨
    (¬ (startsWith (imageFile "a.png").type "image/" = true ∧
        (imageFile "a.png").size ≤ 5 * 1024 * 1024) ∧
      (handlePhotoUpload (some (imageFile "a.png")) 2 "data:a"
        (initialWizard bikeDom [])).formData = (initialWizard bikeDom []).formData)) :=
  ⟨by decide,
    C23_handlePhotoUpload (imageFile "a.png") 2 "data:a" (initialWizard bikeDom [])
      (by decide)⟩

/-! ## The final step -/

theorem strictEq_finite_iff (x : JSNumber) (neg : Bool) (sig : Nat) (exp : Int) :
    x.strictEq (.finite neg (sig + 1) exp) = true ↔ x = .finite neg (sig + 1) exp := by
  cases x with
  | nan => simp [JSNumber.strictEq]
  | inf n => simp [JSNumber.strictEq]
  | finite n s e =>
    cases s with
    | zero => simp [JSNumber.strictEq]
    | succ k => simp [JSNumber.strictEq]

/-- Claim C29: `validateStep(4)`, like `validateStep` of any step other than 1,
2 and 3, returns true, makes no collaborator call and leaves the Draft
unchanged; hence `publishListing` never stops at its validation: in every
state, whatever the Draft holds, it goes on to collect the form data and
reports the publication; so it does from the initial state (no photos) on a
page with an empty title and the price text "0". -/
theorem C29_final_step_unchecked :
    (∀ (step : JSNumber) (dom : Dom) (fd : Draft), step ≠ 1 → step ≠ 2 → step ≠ 3 →
      (validateStep step dom fd).isValid = true ∧
      (validateStep step dom fd).formData = fd ∧
      (validateStep step dom fd).calls = []) ∧
    (∀ (dom : Dom) (fd : Draft),
      (validateStep 4 dom fd).isValid = true ∧ (validateStep 4 dom fd).formData = fd) ∧
    (∀ (w : Wizard),
      (publishListing w).formData = collectFormData w.dom w.formData ∧
      (publishListing w).calls =
        w.calls ++ [UiCall.showAlert "Listing published successfully!" "success"]) ∧
    ((initialWizard { bikeDom with title := "", price := "0" } []).formData.photos = [] ∧
      (publishListing (initialWizard { bikeDom with title := "", price := "0" } [])).calls =
        [UiCall.showAlert "Listing published successfully!" "success"] ∧
      (publishListing
        (initialWizard { bikeDom with title := "", price := "0" } [])).formData.title = "") := by
  have hpub : ∀ (w : Wizard),
      (publishListing w).formData = collectFormData w.dom w.formData ∧
      (publishListing w).calls =
        w.calls ++ [UiCall.showAlert "Listing published successfully!" "success"] := by
    intro w
    refine ⟨publishListing_formData w, ?_⟩
    simp [publishListing, Wizard.runValidateStep, validateStep_four, Validation.start,
      Wizard.runCollectFormData]
  refine ⟨?_, ?_, hpub, rfl, ?_, ?_⟩
  · intro step dom fd h1 h2 h3
    have e1 : step.strictEq 1 = false := by
      rw [number_one, ← Bool.not_eq_true, strictEq_finite_iff, ← number_one]; exact h1
    have e2 : step.strictEq 2 = false := by
      rw [number_two, ← Bool.not_eq_true, strictEq_finite_iff, ← number_two]; exact h2
    have e3 : step.strictEq 3 = false := by
      rw [number_three, ← Bool.not_eq_true, strictEq_finite_iff, ← number_three]; exact h3
    simp [validateStep, e1, e2, e3, Validation.start]
  · intro dom fd
    rw [validateStep_four]
    exact ⟨rfl, rfl⟩
  · rw [(hpub _).2]
    rfl
  · rw [(hpub _).1]
    decide

/-- Witness for C29: step 4, and also a step outside the wizard such as NaN. -/
theorem C29_final_step_unchecked_witness :
    ((4 : JSNumber) ≠ 1 ∧ (4 : JSNumber) ≠ 2 ∧ (4 : JSNumber) ≠ 3) ∧
    ((validateStep 4 bikeDom initialFormData).isValid = true ∧
      (validateStep 4 bikeDom initialFormData).formData = initialFormData ∧
      (validateStep 4 bikeDom initialFormData).calls = []) :=
  ⟨⟨by rw [number_four, number_one]; decide, by rw [number_four, number_two]; decide,
      by rw [number_four, number_three]; decide⟩,
    C29_final_step_unchecked.1 4 bikeDom initialFormData
      (by rw [number_four, number_one]; decide) (by rw [number_four, number_two]; decide)
      (by rw [number_four, number_three]; decide)⟩

/-! ## Removing tags -/

/-- Claim C30: for every tag list with fewer than 10 entries and every
non-empty tag `t` not in it, `removeTag(t)` after `addTag(t)` gives the list
back; and for every list and tag, `removeTag(t)` gives the list with every
occurrence of `t` removed, the other tags keeping their order, and applying
it twice changes nothing more. -/
theorem C30_removeTag :
    (∀ (t : String) (w : Wizard), w.formData.tags.length < 10 → t ≠ "" →
      t ∉ w.formData.tags →
      (removeTag t (addTag t w)).formData.tags = w.formData.tags) ∧
    (∀ (t : String) (w : Wizard),
      (removeTag t w).formData.tags = w.formData.tags.filter (fun x => decide (x ≠ t)) ∧
      t ∉ (removeTag t w).formData.tags ∧
      (∀ x, x ≠ t → ((removeTag t w).formData.tags.count x = w.formData.tags.count x)) ∧
      (removeTag t w).formData.tags.Sublist w.formData.tags ∧
      removeTag t (removeTag t w) = removeTag t w) := by
  have hfilter : ∀ (t : String) (l : List String),
      l.filter (fun x => x != t) = l.filter (fun x => decide (x ≠ t)) := by
    intro t l
    congr 1
    funext x
    by_cases h : x = t <;> simp [h]
  constructor
  · intro t w hlen hne hnot
    have hadd : (addTag t w).formData.tags = w.formData.tags ++ [t] := by
      rw [addTag_tags, if_neg]
      simp only [not_or, not_le]
      exact ⟨hne, hnot, hlen⟩
    simp only [removeTag, hadd, List.filter_append]
    have h1 : w.formData.tags.filter (fun x => x != t) = w.formData.tags := by
      apply List.filter_eq_self.2
      intro x hx
      simp only [bne_iff_ne, ne_eq]
      rintro rfl
      exact hnot hx
    simp [h1]
  · intro t w
    refine ⟨hfilter t _, ?_, ?_, ?_, ?_⟩
    · simp [removeTag]
    · intro x hx
      simp only [removeTag]
      rw [List.count_filter]
      simpa using hx
    · simp only [removeTag]
      exact List.filter_sublist _
    · simp only [removeTag, List.filter_filter, Bool.and_self]

/-- Witness for C30: the tag "bike" added to the list holding "red", then
removed. -/
theorem C30_removeTag_witness :
    ((addTag "red" (initialWizard bikeDom [])).formData.tags.length < 10 ∧ "bike" ≠ "" ∧
      "bike" ∉ (addTag "red" (initialWizard bikeDom [])).formData.tags) ∧
    (removeTag "bike" (addTag "bike" (addTag "red" (initialWizard bikeDom [])))).formData.tags
      = (addTag "red" (initialWizard bikeDom [])).formData.tags :=
  ⟨⟨by decide, by decide, by decide⟩,
    C30_removeTag.1 "bike" (addTag "red" (initialWizard bikeDom [])) (by decide) (by decide)
      (by decide)⟩

end CreateListing

namespace Common

open JS

/-! ## Text helpers of `common.js` -/

/-- Claim C24 (the code at the failing input): `ui.truncateText("abcdef", 3)`
returns "abc...", a string of 6 characters, more than the maximum length 3:
the three dots are appended after cutting to `length`.  A text of at most
`length` characters is returned unchanged. -/
theorem C24_truncateText_exceeds_length :
    truncateText (utf16 "abcdef") 3 = utf16 "abc..." ∧
    (truncateText (utf16 "abcdef") 3).length = 6 ∧
    ¬ ((truncateText (utf16 "abcdef") 3).length ≤ 3) ∧
    (∀ (text : List Nat) (n : Nat), text.length ≤ n → truncateText text n = text) := by
  refine ⟨by decide, by decide, by decide, ?_⟩
  intro text n h
  simp [truncateText, h]

/-- The entries of the interval table from a given one on, all of size at
most `bound`, with positive sizes in decreasing order. -/
theorem formatLoop_spec (table : List (String × Int)) (s : Int)
    (hpos : ∀ p ∈ table, 0 < p.2) (hsorted : table.Pairwise fun p q => q.2 ≤ p.2) :
    ((∀ p ∈ table, s < p.2) ∧ formatLoop table s = "Just now") ∨
    (∃ unit size, (unit, size) ∈ table ∧ size ≤ s ∧ (∀ p ∈ table, p.2 ≤ s → p.2 ≤ size) ∧
      1 ≤ s / size ∧
      formatLoop table s =
        toString (s / size) ++ " " ++ unit ++ (if s / size > 1 then "s" else "") ++ " ago") := by
  induction table with
  | nil => exact Or.inl ⟨by simp, rfl⟩
  | cons p rest ih =>
    obtain ⟨unit, size⟩ := p
    have hsize : 0 < size := hpos (unit, size) (List.mem_cons_self _ _)
    have hrest := ih (fun q hq => hpos q (List.mem_cons_of_mem _ hq))
      (List.Pairwise.of_cons hsorted)
    have hle : ∀ q ∈ rest, q.2 ≤ size := fun q hq => (List.rel_of_pairwise_cons hsorted hq)
    by_cases h : 1 ≤ s / size
    · right
      have hs : size ≤ s := by
        by_contra hc
        have hlt : s < size := by omega
        have : s / size ≤ 0 := by
          rcases lt_or_le s 0 with hneg | hnn
          · exact le_of_lt (Int.ediv_neg' hneg hsize)
          · exact le_of_eq (Int.ediv_eq_zero_of_lt hnn hlt)
        omega
      refine ⟨unit, size, List.mem_cons_self _ _, hs, ?_, h, ?_⟩
      · intro q hq _
        rcases List.mem_cons.1 hq with rfl | hq
        · exact le_refl _
        · exact hle q hq
      · simp [formatLoop, h]
    · have hs : s < size := by
        by_contra hc
        have : size ≤ s := by omega
        exact h (Int.le_ediv_of_mul_le hsize (by simpa using this))
      have hstep : formatLoop ((unit, size) :: rest) s = formatLoop rest s := by
        simp [formatLoop, h]
      rcases hrest with ⟨hall, hjust⟩ | ⟨u, sz, hmem, hsz, hmax, hn, hres⟩
      · left
        refine ⟨?_, by rw [hstep, hjust]⟩
        intro q hq
        rcases List.mem_cons.1 hq with rfl | hq
        · exact hs
        · exact hall q hq
      · right
        refine ⟨u, sz, List.mem_cons_of_mem _ hmem, hsz, ?_, hn, by rw [hstep, hres]⟩
        intro q hq hqs
        rcases List.mem_cons.1 hq with rfl | hq
        · exact absurd hqs (by simpa using hs)
        · exact hmax q hq hqs

/-- Claim C27: with `s` the whole seconds elapsed between the given date and
now, `ui.formatRelativeTime` returns "Just now" when `s < 60`, and otherwise
`<n> <unit> ago`, with "s" appended to the unit exactly when `n > 1`, where
the unit is the largest of year, month, week, day, hour and minute whose size
in seconds is at most `s`, and `n = floor(s / size) >= 1`. -/
theorem C27_formatRelativeTime (now date : Int) :
    ((now - date) / 1000 < 60 ∧ formatRelativeTime now date = "Just now") ∨
    (60 ≤ (now - date) / 1000 ∧
      ∃ unit size, (unit, size) ∈ intervals ∧ size ≤ (now - date) / 1000 ∧
        (∀ p ∈ intervals, p.2 ≤ (now - date) / 1000 → p.2 ≤ size) ∧
        1 ≤ (now - date) / 1000 / size ∧
        formatRelativeTime now date =
          toString ((now - date) / 1000 / size) ++ " " ++ unit ++
            (if (now - date) / 1000 / size > 1 then "s" else "") ++ " ago") := by
  have h := formatLoop_spec intervals ((now - date) / 1000) (by decide) (by decide)
  rcases h with ⟨hall, hjust⟩ | ⟨unit, size, hmem, hsz, hmax, hn, hres⟩
  · left
    exact ⟨hall ("minute", 60) (by decide), hjust⟩
  · right
    refine ⟨?_, unit, size, hmem, hsz, hmax, hn, hres⟩
    have h60 : ∀ p ∈ intervals, (60 : Int) ≤ p.2 := by decide
    exact le_trans (h60 _ hmem) hsz

/-! ## Validators of `common.js` -/

/-- Claim C25: for every password, `validate.password` sets the four flags to
the four criteria (at least 8 UTF-16 code units, some character in A-Z, some
in a-z, some digit 0-9), returns as strength the number of flags that hold,
so at most 4, and returns `isValid` true if and only if all four criteria
hold, that is if and only if the strength is 4. -/
theorem C25_password (pw : String) :
    ((password pw).hasLength = true ↔ 8 ≤ (utf16 pw).length) ∧
    ((password pw).hasUpper = true ↔ ∃ c ∈ pw.data, 'A' ≤ c ∧ c ≤ 'Z') ∧
    ((password pw).hasLower = true ↔ ∃ c ∈ pw.data, 'a' ≤ c ∧ c ≤ 'z') ∧
    ((password pw).hasNumber = true ↔ ∃ c ∈ pw.data, '0' ≤ c ∧ c ≤ '9') ∧
    (password pw).strength =
      (password pw).hasLength.toNat + (password pw).hasUpper.toNat +
        (password pw).hasLower.toNat + (password pw).hasNumber.toNat ∧
    (password pw).strength ≤ 4 ∧
    ((password pw).isValid = true ↔
      ((password pw).hasLength = true ∧ (password pw).hasUpper = true ∧
        (password pw).hasLower = true ∧ (password pw).hasNumber = true)) ∧
    ((password pw).isValid = true ↔ (password pw).strength = 4) := by
  have hchar : ∀ (lo hi c : Char),
      (lo ≤ c ∧ c ≤ hi) ↔ (lo.toNat ≤ c.toNat ∧ c.toNat ≤ hi.toNat) := by
    intro lo hi c
    simp only [Char.le_def, Char.toNat, UInt32.le_def, UInt32.toNat, BitVec.le_def]
  refine ⟨by simp [password], ?_, ?_, ?_, ?_, ?_, ?_, ?_⟩
  · simp only [password, List.any_eq_true, Bool.and_eq_true, decide_eq_true_eq, hchar]
    rfl
  · simp only [password, List.any_eq_true, Bool.and_eq_true, decide_eq_true_eq, hchar]
    rfl
  · simp only [password, List.any_eq_true, Bool.and_eq_true, decide_eq_true_eq, hchar]
    rfl
  · simp only [password]
    generalize decide ((utf16 pw).length ≥ 8) = a
    generalize (pw.data.any fun c => decide (65 ≤ c.toNat) && decide (c.toNat ≤ 90)) = b
    generalize (pw.data.any fun c => decide (97 ≤ c.toNat) && decide (c.toNat ≤ 122)) = c
    generalize (pw.data.any fun c => decide (48 ≤ c.toNat) && decide (c.toNat ≤ 57)) = d
    cases a <;> cases b <;> cases c <;> cases d <;> rfl
  · simp only [password]
    generalize decide ((utf16 pw).length ≥ 8) = a
    generalize (pw.data.any fun c => decide (65 ≤ c.toNat) && decide (c.toNat ≤ 90)) = b
    generalize (pw.data.any fun c => decide (97 ≤ c.toNat) && decide (c.toNat ≤ 122)) = c
    generalize (pw.data.any fun c => decide (48 ≤ c.toNat) && decide (c.toNat ≤ 57)) = d
    cases a <;> cases b <;> cases c <;> cases d <;> decide
  · simp only [password, Bool.and_eq_true, and_assoc]
  · simp only [password]
    generalize decide ((utf16 pw).length ≥ 8) = a
    generalize (pw.data.any fun c => decide (65 ≤ c.toNat) && decide (c.toNat ≤ 90)) = b
    generalize (pw.data.any fun c => decide (97 ≤ c.toNat) && decide (c.toNat ≤ 122)) = c
    generalize (pw.data.any fun c => decide (48 ≤ c.toNat) && decide (c.toNat ≤ 57)) = d
    cases a <;> cases b <;> cases c <;> cases d <;> decide

theorem fullMatch_char_iff (c : Char) (cs : List Char) :
    (Regex.char c).fullMatch cs = true ↔ cs = [c] := by
  simp [Regex.fullMatch]

theorem fullMatch_classPlus_iff (p : Char → Bool) (cs : List Char) :
    (Regex.classPlus p).fullMatch cs = true ↔ cs ≠ [] ∧ ∀ x ∈ cs, p x = true := by
  simp [Regex.fullMatch, List.isEmpty_iff]

theorem fullMatch_seq_iff (a b : Regex) (cs : List Char) :
    (Regex.seq a b).fullMatch cs = true ↔
      ∃ l r, cs = l ++ r ∧ a.fullMatch l = true ∧ b.fullMatch r = true := by
  simp only [Regex.fullMatch, List.any_eq_true, List.mem_range, Bool.and_eq_true]
  constructor
  · rintro ⟨i, -, hl, hr⟩
    exact ⟨cs.take i, cs.drop i, (List.take_append_drop i cs).symm, hl, hr⟩
  · rintro ⟨l, r, rfl, hl, hr⟩
    refine ⟨l.length, by simp; omega, ?_, ?_⟩
    · simpa using hl
    · simpa using hr

theorem notSpaceNorAt_iff (c : Char) :
    notSpaceNorAt c = true ↔ isWhiteSpace c = false ∧ c ≠ '@' := by
  simp [notSpaceNorAt]

/-- The strings accepted by `validate.email`: a non-empty local part, `@`, a
non-empty label, a dot and a non-empty rest, none of the three parts holding
white space or `@`. -/
theorem email_iff_shape (s : String) :
    email s = true ↔
      ∃ L X Y, s.data = L ++ '@' :: (X ++ '.' :: Y) ∧ L ≠ [] ∧ X ≠ [] ∧ Y ≠ [] ∧
        (∀ c ∈ L, notSpaceNorAt c = true) ∧ (∀ c ∈ X, notSpaceNorAt c = true) ∧
        (∀ c ∈ Y, notSpaceNorAt c = true) := by
  simp only [email, emailRegex, fullMatch_seq_iff, fullMatch_char_iff, fullMatch_classPlus_iff]
  constructor
  · rintro ⟨L, r1, h1, ⟨hL, hLall⟩, a, r2, rfl, rfl, X, r3, rfl, ⟨hX, hXall⟩, d, Y, rfl, rfl,
      hY, hYall⟩
    exact ⟨L, X, Y, by simpa using h1, hL, hX, hY, hLall, hXall, hYall⟩
  · rintro ⟨L, X, Y, h, hL, hX, hY, hLall, hXall, hYall⟩
    exact ⟨L, _, h, ⟨hL, hLall⟩, ['@'], _, rfl, rfl, X, _, rfl, ⟨hX, hXall⟩, ['.'], Y, rfl,
      rfl, hY, hYall⟩

/-- Claim C26: `validate.email(s)` returns true if and only if `s` contains no
white space, contains exactly one `@`, has at least one character before the
`@`, and the part after the `@` contains a `.` that is neither its first nor
its last character. -/
theorem C26_email (s : String) :
    email s = true ↔
      (∀ c ∈ s.data, isWhiteSpace c = false) ∧ s.data.count '@' = 1 ∧
      ∃ before after, s.data = before ++ '@' :: after ∧ before ≠ [] ∧
        ∃ i, 0 < i ∧ i + 1 < after.length ∧ after[i]? = some '.' := by
  rw [email_iff_shape]
  constructor
  · rintro ⟨L, X, Y, h, hL, hX, hY, hLall, hXall, hYall⟩
    have hat : isWhiteSpace '@' = false := by decide
    have hdot : isWhiteSpace '.' = false := by decide
    refine ⟨?_, ?_, L, X ++ '.' :: Y, h, hL, X.length, List.length_pos.2 hX, ?_, ?_⟩
    · intro c hc
      rw [h] at hc
      simp only [List.mem_append, List.mem_cons] at hc
      rcases hc with hc | rfl | hc | rfl | hc
      · exact ((notSpaceNorAt_iff c).1 (hLall c hc)).1
      · exact hat
      · exact ((notSpaceNorAt_iff c).1 (hXall c hc)).1
      · exact hdot
      · exact ((notSpaceNorAt_iff c).1 (hYall c hc)).1
    · have c0 : ∀ (l : List Char), (∀ c ∈ l, notSpaceNorAt c = true) → l.count '@' = 0 := by
        intro l hl
        rw [List.count_eq_zero]
        intro hmem
        exact ((notSpaceNorAt_iff _).1 (hl _ hmem)).2 rfl
      rw [h]
      simp [List.count_append, List.count_cons, c0 L hLall, c0 X hXall, c0 Y hYall]
    · have : 0 < Y.length := List.length_pos.2 hY
      simp
      omega
    · rw [List.getElem?_append_right (le_refl _)]
      simp
  · rintro ⟨hws, hcount, before, after, h, hb, i, hi0, hi1, hget⟩
    rw [h] at hcount hws
    have hc : before.count '@' = 0 ∧ after.count '@' = 0 := by
      simp [List.count_append, List.count_cons] at hcount
      omega
    have hok : ∀ (l : List Char), l.count '@' = 0 → (∀ c ∈ l, isWhiteSpace c = false) →
        ∀ c ∈ l, notSpaceNorAt c = true := by
      intro l hl hw c hc
      rw [notSpaceNorAt_iff]
      refine ⟨hw c hc, ?_⟩
      rintro rfl
      exact (List.count_eq_zero.1 hl) hc
    have hwb : ∀ c ∈ before, isWhiteSpace c = false := fun c hc =>
      hws c (List.mem_append_left _ hc)
    have hwa : ∀ c ∈ after, isWhiteSpace c = false := fun c hc =>
      hws c (List.mem_append_right _ (List.mem_cons_of_mem _ hc))
    have hilt : i < after.length := by omega
    have hgi : after[i] = '.' := by
      have := List.getElem?_eq_getElem hilt
      rw [this] at hget
      exact Option.some.inj hget
    have hsplit : after = after.take i ++ '.' :: after.drop (i + 1) := by
      conv_lhs => rw [← List.take_append_drop i after]
      rw [List.drop_eq_getElem_cons hilt, hgi]
    have haall := hok after hc.2 hwa
    refine ⟨before, after.take i, after.drop (i + 1), ?_, hb, ?_, ?_, hok before hc.1 hwb,
      fun c hc => haall c (List.mem_of_mem_take hc),
      fun c hc => haall c (List.mem_of_mem_drop hc)⟩
    · rw [h, ← hsplit]
    · intro hnil
      have := congrArg List.length hnil
      rw [List.length_take, List.length_nil] at this
      omega
    · intro hnil
      have := congrArg List.length hnil
      rw [List.length_drop, List.length_nil] at this
      omega

end Common

namespace Listings

open JS

/-! ## The listing filter -/

/-- Claim C28 (the code at the failing input): typing "0" into the maximum
price input sets `priceMax` to the number 0 (not `null`), yet
`filterListings` keeps a listing priced 5, although 5 > 0: the bound is tested
for truthiness, and 0 is falsy.  With `priceMax` 4 the same listing is
dropped. -/
theorem C28_zero_priceMax_ignored (toLowerCase : String → String) :
    priceInput "0" = some (JSNumber.finite false 0 0) ∧
    JSNumber.gt (JSNumber.finite false 5 0) (JSNumber.finite false 0 0) = true ∧
    filterListings toLowerCase { initialFilters with priceMax := priceInput "0" }
      [{ title := "Bike", description := some "A bike.", category := "sports",
         condition := "good", price := JSNumber.finite false 5 0 }] =
      [{ title := "Bike", description := some "A bike.", category := "sports",
         condition := "good", price := JSNumber.finite false 5 0 }] ∧
    filterListings toLowerCase { initialFilters with priceMax := priceInput "4" }
      [{ title := "Bike", description := some "A bike.", category := "sports",
         condition := "good", price := JSNumber.finite false 5 0 }] = [] := by
  have h0 : priceInput "0" = some (JSNumber.finite false 0 0) := by decide
  have h4 : priceInput "4" = some (JSNumber.finite false 1 2) := by decide
  refine ⟨h0, by decide, ?_, ?_⟩
  · rw [h0]
    rfl
  · rw [h4]
    rfl

end Listings
